import Mathlib

/-!
Verification of the reactive-observable system ("Obs") and parts of the
vDOM engine ("Od") of this repository, as compiled in the source file
holding Obs.ts / Od.ts output.

The embedding follows the source closely:

* An observable ("cell") is a JS function object carrying fields
  `value`, `eq`, `fn`, `dependencies`, `dependents`, `level`,
  `isInUpdateQueue`.  We model the heap of such objects as an
  association list from numeric ids (`obsid`) to `Cell` records.
* `dependencies` / `dependents` are JS objects keyed by numeric obsid
  with entries nulled out on removal; we model each as a list of the
  live (non-null) ids kept in ascending order, matching the ascending
  numeric enumeration order of integer-keyed JS objects.
* A computed observable's body is a deep embedding (`Body`): a sequence
  of observable reads (each read goes through the read arm of
  `readOrWriteObs`, i.e. it records a dependency when tracking is on and
  returns the current value) ending in a result, or raising an exception
  (`Body.fail`).
* The module-level mutable variables (`updateQ`, `updateDepth`,
  `currentDependencies`, `nextID`) are fields of `ObsState`.
  `currentDependencies` in the source is an alias of the *evaluating*
  cell's `dependencies` object, so we model it as the id of that cell.
* Recursion through the update queue (`processUpdateQueue` →
  `reevaluateComputedObs` → `updateDependents` → `endUpdate` →
  `processUpdateQueue`) is given explicit fuel; all theorems below use
  enough fuel for the runs they describe.
* Instrumentation (not present in the source, used only to state
  properties): `evalLog` records, in order, the id of each computed
  observable whose body function is run, and `reported` counts
  invocations of `Obs.exceptionReporter`.
-/

/-- JS values held by observables; `none` models `null`/`undefined`. -/
abbrev Val := Option Int

/-- Source `Obs.defaultEq`: the `===` equality test. -/
def defaultEq (x y : Val) : Bool := x == y

/-- Deep embedding of a computed observable's body function: a body either
returns a value, reads an observable (the read arm of `readOrWriteObs`)
and continues with the value read, or throws an exception. -/
inductive Body where
  | ret : Val → Body
  | readThen : Nat → (Val → Body) → Body
  | fail : Body

/-- One observable (the fields the source stores on the JS function
object).  `fnBody = some b` corresponds to the presence of the `fn`
property, i.e. a computed observable; `dependencies`/`dependents` model
presence (`some`) or absence (`none`) of the corresponding JS property,
with the list holding the non-null entries in ascending id order. -/
structure Cell where
  value : Val
  eq : Val → Val → Bool
  fnBody : Option Body
  dependencies : Option (List Nat)
  dependents : Option (List Nat)
  level : Nat
  isInUpdateQueue : Bool

/-- The module-level state of Obs, plus instrumentation counters. -/
structure ObsState where
  cells : List (Nat × Cell)
  updateQ : List Nat
  updateDepth : Nat
  tracking : Option Nat
  nextID : Nat
  evalLog : List Nat
  reported : Nat

/-- The empty initial state of the Obs module. -/
def initState : ObsState :=
  { cells := [], updateQ := [], updateDepth := 0, tracking := none,
    nextID := 1, evalLog := [], reported := 0 }

/-- Look up the cell with a given obsid. -/
def lookupCell (s : ObsState) (i : Nat) : Option Cell :=
  (s.cells.find? (fun p => p.1 == i)).map (fun p => p.2)

/-- Apply a function to the cell with a given obsid. -/
def updCell (s : ObsState) (i : Nat) (f : Cell → Cell) : ObsState :=
  { s with cells := s.cells.map (fun p => if p.1 == i then (p.1, f p.2) else p) }

/-- Current value of an observable (`obs.value`); source `Obs.peek`. -/
def peekValue (s : ObsState) (i : Nat) : Val :=
  match lookupCell s i with
  | some c => c.value
  | none => none

/-- Level of an observable, with JS `undefined | 0` coercion to 0. -/
def levelOf (s : ObsState) (i : Nat) : Nat :=
  match lookupCell s i with
  | some c => c.level
  | none => 0

/-- Insert an id into an ascending id list (JS object key insertion:
integer keys enumerate in ascending order and re-assignment does not
duplicate). -/
def insertSorted (i : Nat) : List Nat → List Nat
  | [] => [i]
  | j :: js =>
    if i < j then i :: j :: js
    else if i = j then j :: js
    else j :: insertSorted i js

/-- Instrumentation: record one execution of cell `i`'s body function. -/
def bumpCount (s : ObsState) (i : Nat) : ObsState :=
  { s with evalLog := s.evalLog ++ [i] }

/-- Number of times cell `i`'s body function has been run. -/
def evalCount (s : ObsState) (i : Nat) : Nat :=
  s.evalLog.count i

/-- Instrumentation: count one call of `Obs.exceptionReporter`. -/
def bumpReported (s : ObsState) : ObsState :=
  { s with reported := s.reported + 1 }

/-- The dependency-recording part of the read arm of `readOrWriteObs`:
`if (currentDependencies) currentDependencies[obs.obsid] = obs;`.
`currentDependencies` aliases the evaluating cell's `dependencies`
object, identified here by `s.tracking`. -/
def recordDependency (s : ObsState) (i : Nat) : ObsState :=
  match s.tracking with
  | none => s
  | some owner =>
      updCell s owner (fun c =>
        { c with dependencies := some (insertSorted i (c.dependencies.getD [])) })

/-- Run a body function.  Each read records a dependency (when tracking
is on) and yields the observable's current value, exactly as the read
arm of `readOrWriteObs` does.  Returns `none` when the body throws. -/
def runBody (s : ObsState) : Body → ObsState × Option Val
  | .ret v => (s, some v)
  | .fail => (s, none)
  | .readThen i k =>
      let s1 := recordDependency s i
      runBody s1 (k (peekValue s1 i))

/-- Source `updateComputedObs`: read the old value, run the body, store
the new value and report whether it changed.  A thrown exception
(`none`) propagates before the value assignment. -/
def updateComputedObs (s : ObsState) (i : Nat) (body : Body)
    (eqf : Val → Val → Bool) : ObsState × Option Bool :=
  let oldX := peekValue s i
  let (s1, res) := runBody (bumpCount s i) body
  match res with
  | some newX => (updCell s1 i (fun c => { c with value := newX }), some (!eqf oldX newX))
  | none => (s1, none)

/-- Source `tryReevaluateObsFn`: run `obs.fn()`, catching exceptions;
on an exception report it (`Obs.exceptionReporter`) and return `false`
(treated as unchanged). -/
def tryReevaluateObsFn (s : ObsState) (i : Nat) (body : Body)
    (eqf : Val → Val → Bool) : ObsState × Bool :=
  match updateComputedObs s i body eqf with
  | (s1, some b) => (s1, b)
  | (s1, none) => (bumpReported s1, false)

/-- Source `breakDependencies`: null out each dependency entry and the
matching entry of that dependency's `dependents`. -/
def breakDependencies (s : ObsState) (i : Nat) : ObsState :=
  match lookupCell s i with
  | none => s
  | some c =>
    match c.dependencies with
    | none => s
    | some deps =>
      let s1 := deps.foldl
        (fun acc d =>
          updCell acc d (fun dc =>
            { dc with dependents := dc.dependents.map (fun l => l.filter (fun j => j ≠ i)) }))
        s
      updCell s1 i (fun c => { c with dependencies := some [] })

/-- Source `establishDependencies`: link this cell as a dependent of
each of its recorded dependencies (creating the `dependents` object if
absent) and recompute its level as one more than the maximum dependency
level (0 if there are none). -/
def establishDependencies (s : ObsState) (i : Nat) : ObsState :=
  match lookupCell s i with
  | none => s
  | some c =>
    match c.dependencies with
    | none => updCell s i (fun c => { c with level := 0 })
    | some deps =>
      let s1 := deps.foldl
        (fun acc d =>
          updCell acc d (fun dc =>
            { dc with dependents := some (insertSorted i (dc.dependents.getD [])) }))
        s
      let lv := deps.foldl
        (fun acc d => if acc ≤ levelOf s d then levelOf s d + 1 else acc) 0
      updCell s1 i (fun c => { c with level := lv })

/-- Source `enqueueUpdate` sift-up ("DownHeap" in its comment): the
binary-heap insertion loop, translated exactly (parent index `i >> 1`).
The first argument is fuel; `i + 1` units always suffice since the
index halves each step. -/
def siftUp (lvl : Nat → Nat) (x : Nat) : Nat → List Nat → Nat → List Nat
  | 0, q, i => q.set i x
  | fuel + 1, q, i =>
    if i = 0 then q.set 0 x
    else
      let j := i / 2
      let obsJ := q.getD j 0
      if lvl obsJ ≤ lvl x then q.set i x
      else siftUp lvl x fuel (q.set i obsJ) j

/-- Source `enqueueUpdate`, heap part: push onto the end of `updateQ`
and sift up. -/
def heapPush (lvl : Nat → Nat) (q : List Nat) (x : Nat) : List Nat :=
  siftUp lvl x (q.length + 1) (q ++ [x]) q.length

/-- Source `dequeueUpdate` sift-down ("UpHeap" in its comment),
translated exactly: children `j = i << 1` and `k = min (j+1) (n-1)`.
Fuel `q.length + 1` always suffices since the hole index strictly
increases. -/
def siftDown (lvl : Nat → Nat) (x : Nat) : Nat → List Nat → Nat → Nat → List Nat
  | 0, q, i, _ => q.set i x
  | fuel + 1, q, i, j =>
    let n := q.length
    if j < n then
      let k := min (j + 1) (n - 1)
      let objJ := q.getD j 0
      let objK := q.getD k 0
      if lvl objJ ≤ lvl objK then
        if lvl x ≤ lvl objJ then q.set i x
        else siftDown lvl x fuel (q.set i objJ) j (2 * j)
      else
        if lvl x ≤ lvl objK then q.set i x
        else siftDown lvl x fuel (q.set i objK) k (2 * k)
    else q.set i x

/-- Source `dequeueUpdate`, heap part: return the root, move the last
element into the root and sift down. -/
def heapPop (lvl : Nat → Nat) (q : List Nat) : Option Nat × List Nat :=
  match q with
  | [] => (none, [])
  | obs :: rest =>
    let obsI := (obs :: rest).getLast (by simp)
    let qd := (obs :: rest).dropLast
    if qd.length = 0 then (some obs, qd)
    else (some obs, siftDown lvl obsI (qd.length + 1) qd 0 1)

/-- Source `enqueueUpdate`: skip cells already queued
(`isInUpdateQueue`), otherwise mark them and push into the heap. -/
def enqueueUpdate (s : ObsState) (i : Nat) : ObsState :=
  match lookupCell s i with
  | none => s
  | some c =>
    if c.isInUpdateQueue then s
    else
      let s1 := updCell s i (fun c => { c with isInUpdateQueue := true })
      { s1 with updateQ := heapPush (levelOf s1) s1.updateQ i }

/-- Source `dequeueUpdate`: pop the root of the heap (clearing its
`isInUpdateQueue` flag), or `none` when the queue is empty. -/
def dequeueUpdate (s : ObsState) : Option Nat × ObsState :=
  match s.updateQ with
  | [] => (none, s)
  | i :: _ =>
    let s1 := updCell s i (fun c => { c with isInUpdateQueue := false })
    let (_, q') := heapPop (levelOf s1) s.updateQ
    (some i, { s1 with updateQ := q' })

/-- Source `Obs.startUpdate`: open a batch region. -/
def startUpdate (s : ObsState) : ObsState :=
  { s with updateDepth := s.updateDepth + 1 }

/-- The bundle of the four mutually recursive queue-processing
procedures at a given fuel: `(endUpdate, processUpdateQueue,
reevaluateComputedObs, updateDependents)`. -/
def MachineT : Type :=
  (ObsState → ObsState) × (ObsState → ObsState) ×
    (Nat → ObsState → ObsState) × (Nat → ObsState → ObsState)

/-- Source `Obs.endUpdate` body: close a batch region; flush the queue
when the outermost region closes.  `procQ` is `processUpdateQueue` at
the next lower fuel. -/
def endUpdateBody (procQ : ObsState → ObsState) (s : ObsState) : ObsState :=
  let s1 := if s.updateDepth > 0 then { s with updateDepth := s.updateDepth - 1 } else s
  if s1.updateDepth = 0 then procQ s1 else s1

/-- Source `processUpdateQueue` body: drain the queue, re-evaluating
each dequeued observable. -/
def processUpdateQueueBody (procQ : ObsState → ObsState)
    (reev : Nat → ObsState → ObsState) (s : ObsState) : ObsState :=
  match dequeueUpdate s with
  | (none, s1) => s1
  | (some i, s1) => procQ (reev i s1)

/-- Source `reevaluateComputedObs` body: point `currentDependencies` at
this cell's dependency map, break old links, run the body, re-establish
links and level, restore tracking, and schedule dependents if the value
changed. -/
def reevaluateComputedObsBody (updD : Nat → ObsState → ObsState)
    (i : Nat) (s : ObsState) : ObsState :=
  match lookupCell s i with
  | none => s
  | some c =>
    match c.fnBody with
    | none => s
    | some body =>
      let old := s.tracking
      let s1 := { s with tracking := some i }
      let s2 := breakDependencies s1 i
      let (s3, hasChanged) := tryReevaluateObsFn s2 i body c.eq
      let s4 := establishDependencies s3 i
      let s5 := { s4 with tracking := old }
      if hasChanged then updD i s5 else s5

/-- Source `Obs.updateDependents` body: enqueue every (non-null)
dependent inside a batch region, so that closing it flushes the
queue. -/
def updateDependentsBody (endU : ObsState → ObsState) (i : Nat) (s : ObsState) : ObsState :=
  match lookupCell s i with
  | none => s
  | some c =>
    match c.dependents with
    | none => s
    | some deps =>
      let s1 := startUpdate s
      let s2 := deps.foldl (fun acc d => enqueueUpdate acc d) s1
      endU s2

/-- The four procedures tied together by explicit `Nat.rec` fuel
recursion (each recursive call re-enters the bundle at one lower fuel;
out of fuel every procedure is the identity on the state). -/
def machine (fuel : Nat) : MachineT :=
  Nat.rec (motive := fun _ => MachineT)
    (fun s => s, fun s => s, fun _ s => s, fun _ s => s)
    (fun _ prev =>
      (endUpdateBody prev.2.1,
       processUpdateQueueBody prev.2.1 prev.2.2.1,
       reevaluateComputedObsBody prev.2.2.2,
       updateDependentsBody prev.1))
    fuel

/-- Source `Obs.endUpdate` (fuelled). -/
def endUpdate (fuel : Nat) (s : ObsState) : ObsState := (machine fuel).1 s

/-- Source `processUpdateQueue` (fuelled). -/
def processUpdateQueue (fuel : Nat) (s : ObsState) : ObsState := (machine fuel).2.1 s

/-- Source `reevaluateComputedObs` (fuelled). -/
def reevaluateComputedObs (fuel : Nat) (s : ObsState) (i : Nat) : ObsState :=
  (machine fuel).2.2.1 i s

/-- Source `Obs.updateDependents` (fuelled). -/
def updateDependents (fuel : Nat) (s : ObsState) (i : Nat) : ObsState :=
  (machine fuel).2.2.2 i s

theorem endUpdate_zero (s : ObsState) : endUpdate 0 s = s := rfl

theorem endUpdate_succ (n : Nat) (s : ObsState) :
    endUpdate (n + 1) s = endUpdateBody (processUpdateQueue n) s := rfl

theorem processUpdateQueue_zero (s : ObsState) : processUpdateQueue 0 s = s := rfl

theorem processUpdateQueue_succ (n : Nat) (s : ObsState) :
    processUpdateQueue (n + 1) s =
      processUpdateQueueBody (processUpdateQueue n) (fun i t => reevaluateComputedObs n t i) s := rfl

theorem reevaluateComputedObs_zero (s : ObsState) (i : Nat) :
    reevaluateComputedObs 0 s i = s := rfl

theorem reevaluateComputedObs_succ (n : Nat) (s : ObsState) (i : Nat) :
    reevaluateComputedObs (n + 1) s i =
      reevaluateComputedObsBody (fun j t => updateDependents n t j) i s := rfl

theorem updateDependents_zero (s : ObsState) (i : Nat) : updateDependents 0 s i = s := rfl

theorem updateDependents_succ (n : Nat) (s : ObsState) (i : Nat) :
    updateDependents (n + 1) s i = updateDependentsBody (endUpdate n) i s := rfl

/-- Source `readOrWriteObs`.  `newX = some v` is the write arm (one
argument): writing a computed observable throws; otherwise the value is
stored and, if it differs under the equality test, dependents are
scheduled.  `newX = none` is the read arm (no argument): record a
dependency when tracking is on.  Either way `obs.value` is returned.
A thrown error leaves the state unchanged (first component) and is the
`Except.error` result. -/
def readOrWriteObs (fuel : Nat) (s : ObsState) (i : Nat) (newX : Option Val) :
    ObsState × Except String Val :=
  match lookupCell s i with
  | none => (s, .ok none)
  | some obs =>
    match newX with
    | some nx =>
      if obs.fnBody.isSome then
        (s, .error "Computed observables cannot be assigned to.")
      else
        let oldX := obs.value
        let s1 := updCell s i (fun c => { c with value := nx })
        let s2 := if obs.eq oldX nx then s1 else updateDependents fuel s1 i
        (s2, .ok (peekValue s2 i))
    | none =>
      let s1 := recordDependency s i
      (s1, .ok (peekValue s1 i))

/-- Source `Obs.of`: create a mutable observable (no `fn`, no
`dependencies`, no `dependents` property yet). -/
def obsOf (s : ObsState) (x : Val) (eqf : Val → Val → Bool) : ObsState × Nat :=
  let i := s.nextID
  ({ s with
      nextID := i + 1,
      cells := s.cells ++ [(i,
        { value := x, eq := eqf, fnBody := none, dependencies := none,
          dependents := none, level := 0, isInUpdateQueue := false })] }, i)

/-- Source `Obs.fn`: create a computed observable (empty `dependencies`
object) and evaluate it once, synchronously, via
`reevaluateComputedObs`. -/
def obsFn (fuel : Nat) (s : ObsState) (body : Body) (eqf : Val → Val → Bool) :
    ObsState × Nat :=
  let i := s.nextID
  let s1 :=
    { s with
      nextID := i + 1,
      cells := s.cells ++ [(i,
        { value := none, eq := eqf, fnBody := some body, dependencies := some [],
          dependents := none, level := 0, isInUpdateQueue := false })] }
  (reevaluateComputedObs fuel s1 i, i)

/-- Source `Obs.dispose` (for observables; the trailing subscription
block is a no-op for them since they have no `subscriptions` property):
clear the value, break dependency links both ways, and reset
`dependents` to an empty object. -/
def dispose (s : ObsState) (i : Nat) : ObsState :=
  let s1 := updCell s i (fun c => { c with value := none })
  let s2 := breakDependencies s1 i
  updCell s2 i (fun c => { c with dependents := some [] })

/-!
Scenario for claim C1 (diamond dependency).  A mutable observable X
(id 1, initial value `x0`), computed observables U = f(X) (id 2) and
V = g(X, U) (id 3), all with the default equality test, built by
`obsOf` / `obsFn`; then a single write of `w ≠ x0` to X.  The
intermediate states of the run are spelled out as explicit records and
each step of the machine is proved as its own lemma.
-/

/-- Convenience constructor for cell records. -/
def mkCell (v : Val) (eqf : Val → Val → Bool) (b : Option Body)
    (deps deps2 : Option (List Nat)) (lv : Nat) (q : Bool) : Cell :=
  { value := v, eq := eqf, fnBody := b, dependencies := deps, dependents := deps2,
    level := lv, isInUpdateQueue := q }

def dmBodyU (f : Val → Val) : Body := .readThen 1 fun xv => .ret (f xv)
def dmBodyV (g : Val → Val → Val) : Body :=
  .readThen 1 fun xv => .readThen 2 fun uv => .ret (g xv uv)

def dmS1 (x0 : Val) : ObsState :=
  { cells := [(1, mkCell x0 defaultEq none none none 0 false)],
    updateQ := [], updateDepth := 0, tracking := none, nextID := 2,
    evalLog := [], reported := 0 }

def dmS2 (x0 : Val) (f : Val → Val) : ObsState :=
  { cells := [(1, mkCell x0 defaultEq none none (some [2]) 0 false),
              (2, mkCell (f x0) defaultEq (some (dmBodyU f)) (some [1]) none 1 false)],
    updateQ := [], updateDepth := 0, tracking := none, nextID := 3,
    evalLog := [2], reported := 0 }

def dmS3 (x0 : Val) (f : Val → Val) (g : Val → Val → Val) : ObsState :=
  { cells := [(1, mkCell x0 defaultEq none none (some [2, 3]) 0 false),
              (2, mkCell (f x0) defaultEq (some (dmBodyU f)) (some [1]) (some [3]) 1 false),
              (3, mkCell (g x0 (f x0)) defaultEq (some (dmBodyV g)) (some [1, 2]) none 2 false)],
    updateQ := [], updateDepth := 0, tracking := none, nextID := 4,
    evalLog := [2, 3], reported := 0 }

def dmT1 (x0 w : Val) (f : Val → Val) (g : Val → Val → Val) : ObsState :=
  { cells := [(1, mkCell w defaultEq none none (some [2, 3]) 0 false),
              (2, mkCell (f x0) defaultEq (some (dmBodyU f)) (some [1]) (some [3]) 1 false),
              (3, mkCell (g x0 (f x0)) defaultEq (some (dmBodyV g)) (some [1, 2]) none 2 false)],
    updateQ := [], updateDepth := 0, tracking := none, nextID := 4,
    evalLog := [2, 3], reported := 0 }

def dmT2 (x0 w : Val) (f : Val → Val) (g : Val → Val → Val) (d : Nat) : ObsState :=
  { cells := [(1, mkCell w defaultEq none none (some [2, 3]) 0 false),
              (2, mkCell (f x0) defaultEq (some (dmBodyU f)) (some [1]) (some [3]) 1 true),
              (3, mkCell (g x0 (f x0)) defaultEq (some (dmBodyV g)) (some [1, 2]) none 2 true)],
    updateQ := [2, 3], updateDepth := d, tracking := none, nextID := 4,
    evalLog := [2, 3], reported := 0 }

def dmT3 (x0 w : Val) (f : Val → Val) (g : Val → Val → Val) : ObsState :=
  { cells := [(1, mkCell w defaultEq none none (some [2, 3]) 0 false),
              (2, mkCell (f x0) defaultEq (some (dmBodyU f)) (some [1]) (some [3]) 1 false),
              (3, mkCell (g x0 (f x0)) defaultEq (some (dmBodyV g)) (some [1, 2]) none 2 true)],
    updateQ := [3], updateDepth := 0, tracking := none, nextID := 4,
    evalLog := [2, 3], reported := 0 }

def dmT4 (x0 w : Val) (f : Val → Val) (g : Val → Val → Val) (d : Nat) : ObsState :=
  { cells := [(1, mkCell w defaultEq none none (some [2, 3]) 0 false),
              (2, mkCell (f w) defaultEq (some (dmBodyU f)) (some [1]) (some [3]) 1 false),
              (3, mkCell (g x0 (f x0)) defaultEq (some (dmBodyV g)) (some [1, 2]) none 2 true)],
    updateQ := [3], updateDepth := d, tracking := none, nextID := 4,
    evalLog := [2, 3, 2], reported := 0 }

def dmT5 (x0 w : Val) (f : Val → Val) (g : Val → Val → Val) : ObsState :=
  { cells := [(1, mkCell w defaultEq none none (some [2, 3]) 0 false),
              (2, mkCell (f w) defaultEq (some (dmBodyU f)) (some [1]) (some [3]) 1 false),
              (3, mkCell (g x0 (f x0)) defaultEq (some (dmBodyV g)) (some [1, 2]) none 2 false)],
    updateQ := [], updateDepth := 0, tracking := none, nextID := 4,
    evalLog := [2, 3, 2], reported := 0 }

def dmF (w : Val) (f : Val → Val) (g : Val → Val → Val) : ObsState :=
  { cells := [(1, mkCell w defaultEq none none (some [2, 3]) 0 false),
              (2, mkCell (f w) defaultEq (some (dmBodyU f)) (some [1]) (some [3]) 1 false),
              (3, mkCell (g w (f w)) defaultEq (some (dmBodyV g)) (some [1, 2]) none 2 false)],
    updateQ := [], updateDepth := 0, tracking := none, nextID := 4,
    evalLog := [2, 3, 2, 3], reported := 0 }

/-- Flushing an empty queue leaves the state unchanged. -/
theorem processUpdateQueue_empty (n : Nat) (s : ObsState) (hq : s.updateQ = []) :
    processUpdateQueue (n + 1) s = s := by
  simp only [processUpdateQueue_succ, processUpdateQueueBody, dequeueUpdate, hq]

theorem dm1 (x0 : Val) : obsOf initState x0 defaultEq = (dmS1 x0, 1) := by
  simp only [obsOf, initState, dmS1, mkCell, List.nil_append, Nat.reduceAdd]

set_option maxHeartbeats 1000000 in
theorem dm2 (x0 : Val) (f : Val → Val) :
    obsFn 30 (dmS1 x0) (.readThen 1 fun xv => .ret (f xv)) defaultEq = (dmS2 x0 f, 2) := by
  simp only [dmS1, dmS2, dmBodyU, endUpdate_zero, endUpdate_succ, processUpdateQueue_zero, processUpdateQueue_succ,
    reevaluateComputedObs_zero, reevaluateComputedObs_succ, updateDependents_zero,
    updateDependents_succ, endUpdateBody, processUpdateQueueBody, reevaluateComputedObsBody,
    updateDependentsBody, readOrWriteObs, obsOf, obsFn, initState,
    breakDependencies, establishDependencies, tryReevaluateObsFn, updateComputedObs,
    runBody, recordDependency, peekValue, levelOf, lookupCell, updCell, bumpCount,
    bumpReported, startUpdate,
    enqueueUpdate, dequeueUpdate, heapPush, heapPop, siftUp, siftDown, insertSorted,
    defaultEq, evalCount, List.find?, List.map, List.foldl, List.filter, List.set,
    List.count, List.countP, List.countP.go,
    List.getD, List.get?, List.dropLast, List.getLast, List.length, List.append_eq,
    List.cons_append, List.nil_append, Option.getD, Option.map,
    beq_self_eq_true, ne_eq, ite_true, ite_false, ite_self, and_self, and_true, true_and,
    eq_self_iff_true, Bool.false_eq_true, Bool.true_eq_false, Bool.not_true, Bool.not_false,
    Nat.reduceAdd, Nat.reduceSub, Nat.reduceMul, Nat.reduceDiv, Nat.reduceBEq,
    Nat.reduceEqDiff, Nat.reduceLeDiff, Nat.reduceLT, Nat.reduceGT, Nat.min_def,
    reduceCtorEq, decide_eq_true_eq, decide_not, not_true, not_false_iff, decide_True, decide_False,
    cond_true, cond_false, Option.isSome, Option.some.injEq, Prod.mk.injEq, mkCell]

set_option maxHeartbeats 1000000 in
theorem dm3 (x0 : Val) (f : Val → Val) (g : Val → Val → Val) :
    obsFn 30 (dmS2 x0 f) (.readThen 1 fun xv => .readThen 2 fun uv => .ret (g xv uv)) defaultEq =
      (dmS3 x0 f g, 3) := by
  simp only [dmS2, dmS3, dmBodyU, dmBodyV, endUpdate_zero, endUpdate_succ, processUpdateQueue_zero, processUpdateQueue_succ,
    reevaluateComputedObs_zero, reevaluateComputedObs_succ, updateDependents_zero,
    updateDependents_succ, endUpdateBody, processUpdateQueueBody, reevaluateComputedObsBody,
    updateDependentsBody, readOrWriteObs, obsOf, obsFn, initState,
    breakDependencies, establishDependencies, tryReevaluateObsFn, updateComputedObs,
    runBody, recordDependency, peekValue, levelOf, lookupCell, updCell, bumpCount,
    bumpReported, startUpdate,
    enqueueUpdate, dequeueUpdate, heapPush, heapPop, siftUp, siftDown, insertSorted,
    defaultEq, evalCount, List.find?, List.map, List.foldl, List.filter, List.set,
    List.count, List.countP, List.countP.go,
    List.getD, List.get?, List.dropLast, List.getLast, List.length, List.append_eq,
    List.cons_append, List.nil_append, Option.getD, Option.map,
    beq_self_eq_true, ne_eq, ite_true, ite_false, ite_self, and_self, and_true, true_and,
    eq_self_iff_true, Bool.false_eq_true, Bool.true_eq_false, Bool.not_true, Bool.not_false,
    Nat.reduceAdd, Nat.reduceSub, Nat.reduceMul, Nat.reduceDiv, Nat.reduceBEq,
    Nat.reduceEqDiff, Nat.reduceLeDiff, Nat.reduceLT, Nat.reduceGT, Nat.min_def,
    reduceCtorEq, decide_eq_true_eq, decide_not, not_true, not_false_iff, decide_True, decide_False,
    cond_true, cond_false, Option.isSome, Option.some.injEq, Prod.mk.injEq, mkCell]

set_option maxHeartbeats 1000000 in
theorem dm4a (x0 w : Val) (f : Val → Val) (g : Val → Val → Val) (hx : (x0 == w) = false) :
    readOrWriteObs 30 (dmS3 x0 f g) 1 (some w) =
      (updateDependents 30 (dmT1 x0 w f g) 1,
       .ok (peekValue (updateDependents 30 (dmT1 x0 w f g) 1) 1)) := by
  simp only [dmS3, dmT1, dmBodyU, dmBodyV, hx, endUpdate_zero, endUpdate_succ, processUpdateQueue_zero, processUpdateQueue_succ,
    reevaluateComputedObs_zero, reevaluateComputedObs_succ, 
     endUpdateBody, processUpdateQueueBody, reevaluateComputedObsBody,
    updateDependentsBody, readOrWriteObs, obsOf, obsFn, initState,
    breakDependencies, establishDependencies, tryReevaluateObsFn, updateComputedObs,
    runBody, recordDependency,  levelOf, lookupCell, updCell, bumpCount,
    bumpReported, startUpdate,
    enqueueUpdate, dequeueUpdate, heapPush, heapPop, siftUp, siftDown, insertSorted,
    defaultEq, evalCount, List.find?, List.map, List.foldl, List.filter, List.set,
    List.count, List.countP, List.countP.go,
    List.getD, List.get?, List.dropLast, List.getLast, List.length, List.append_eq,
    List.cons_append, List.nil_append, Option.getD, Option.map,
    beq_self_eq_true, ne_eq, ite_true, ite_false, ite_self, and_self, and_true, true_and,
    eq_self_iff_true, Bool.false_eq_true, Bool.true_eq_false, Bool.not_true, Bool.not_false,
    Nat.reduceAdd, Nat.reduceSub, Nat.reduceMul, Nat.reduceDiv, Nat.reduceBEq,
    Nat.reduceEqDiff, Nat.reduceLeDiff, Nat.reduceLT, Nat.reduceGT, Nat.min_def,
    reduceCtorEq, decide_eq_true_eq, decide_not, not_true, not_false_iff, decide_True, decide_False,
    cond_true, cond_false, Option.isSome, Option.some.injEq, Prod.mk.injEq, mkCell]

set_option maxHeartbeats 1000000 in
theorem dm4b (x0 w : Val) (f : Val → Val) (g : Val → Val → Val) (n : Nat) :
    updateDependents (n + 1) (dmT1 x0 w f g) 1 = endUpdate n (dmT2 x0 w f g 1) := by
  simp only [dmT1, dmT2, dmBodyU, dmBodyV,   processUpdateQueue_zero, processUpdateQueue_succ,
    reevaluateComputedObs_zero, reevaluateComputedObs_succ, updateDependents_zero,
    updateDependents_succ, endUpdateBody, processUpdateQueueBody, reevaluateComputedObsBody,
    updateDependentsBody, readOrWriteObs, obsOf, obsFn, initState,
    breakDependencies, establishDependencies, tryReevaluateObsFn, updateComputedObs,
    runBody, recordDependency, peekValue, levelOf, lookupCell, updCell, bumpCount,
    bumpReported, startUpdate,
    enqueueUpdate, dequeueUpdate, heapPush, heapPop, siftUp, siftDown, insertSorted,
    defaultEq, evalCount, List.find?, List.map, List.foldl, List.filter, List.set,
    List.count, List.countP, List.countP.go,
    List.getD, List.get?, List.dropLast, List.getLast, List.length, List.append_eq,
    List.cons_append, List.nil_append, Option.getD, Option.map,
    beq_self_eq_true, ne_eq, ite_true, ite_false, ite_self, and_self, and_true, true_and,
    eq_self_iff_true, Bool.false_eq_true, Bool.true_eq_false, Bool.not_true, Bool.not_false,
    Nat.reduceAdd, Nat.reduceSub, Nat.reduceMul, Nat.reduceDiv, Nat.reduceBEq,
    Nat.reduceEqDiff, Nat.reduceLeDiff, Nat.reduceLT, Nat.reduceGT, Nat.min_def,
    reduceCtorEq, decide_eq_true_eq, decide_not, not_true, not_false_iff, decide_True, decide_False,
    cond_true, cond_false, Option.isSome, Option.some.injEq, Prod.mk.injEq, mkCell]

set_option maxHeartbeats 1000000 in
theorem dm4c (x0 w : Val) (f : Val → Val) (g : Val → Val → Val) (n : Nat) :
    endUpdate (n + 1) (dmT2 x0 w f g 1) = processUpdateQueue n (dmT2 x0 w f g 0) := by
  simp only [dmT2, dmBodyU, dmBodyV, endUpdate_zero, endUpdate_succ,  
    reevaluateComputedObs_zero, reevaluateComputedObs_succ, updateDependents_zero,
    updateDependents_succ, endUpdateBody, processUpdateQueueBody, reevaluateComputedObsBody,
    updateDependentsBody, readOrWriteObs, obsOf, obsFn, initState,
    breakDependencies, establishDependencies, tryReevaluateObsFn, updateComputedObs,
    runBody, recordDependency, peekValue, levelOf, lookupCell, updCell, bumpCount,
    bumpReported, startUpdate,
    enqueueUpdate, dequeueUpdate, heapPush, heapPop, siftUp, siftDown, insertSorted,
    defaultEq, evalCount, List.find?, List.map, List.foldl, List.filter, List.set,
    List.count, List.countP, List.countP.go,
    List.getD, List.get?, List.dropLast, List.getLast, List.length, List.append_eq,
    List.cons_append, List.nil_append, Option.getD, Option.map,
    beq_self_eq_true, ne_eq, ite_true, ite_false, ite_self, and_self, and_true, true_and,
    eq_self_iff_true, Bool.false_eq_true, Bool.true_eq_false, Bool.not_true, Bool.not_false,
    Nat.reduceAdd, Nat.reduceSub, Nat.reduceMul, Nat.reduceDiv, Nat.reduceBEq,
    Nat.reduceEqDiff, Nat.reduceLeDiff, Nat.reduceLT, Nat.reduceGT, Nat.min_def,
    reduceCtorEq, decide_eq_true_eq, decide_not, not_true, not_false_iff, decide_True, decide_False,
    cond_true, cond_false, Option.isSome, Option.some.injEq, Prod.mk.injEq, mkCell]

set_option maxHeartbeats 1000000 in
theorem dm4d (x0 w : Val) (f : Val → Val) (g : Val → Val → Val) (n : Nat) :
    processUpdateQueue (n + 1) (dmT2 x0 w f g 0) =
      processUpdateQueue n (reevaluateComputedObs n (dmT3 x0 w f g) 2) := by
  simp only [dmT2, dmT3, dmBodyU, dmBodyV, endUpdate_zero, endUpdate_succ, processUpdateQueue_zero, processUpdateQueue_succ,
      updateDependents_zero,
    updateDependents_succ, endUpdateBody, processUpdateQueueBody, reevaluateComputedObsBody,
    updateDependentsBody, readOrWriteObs, obsOf, obsFn, initState,
    breakDependencies, establishDependencies, tryReevaluateObsFn, updateComputedObs,
    runBody, recordDependency, peekValue, levelOf, lookupCell, updCell, bumpCount,
    bumpReported, startUpdate,
    enqueueUpdate, dequeueUpdate, heapPush, heapPop, siftUp, siftDown, insertSorted,
    defaultEq, evalCount, List.find?, List.map, List.foldl, List.filter, List.set,
    List.count, List.countP, List.countP.go,
    List.getD, List.get?, List.dropLast, List.getLast, List.length, List.append_eq,
    List.cons_append, List.nil_append, Option.getD, Option.map,
    beq_self_eq_true, ne_eq, ite_true, ite_false, ite_self, and_self, and_true, true_and,
    eq_self_iff_true, Bool.false_eq_true, Bool.true_eq_false, Bool.not_true, Bool.not_false,
    Nat.reduceAdd, Nat.reduceSub, Nat.reduceMul, Nat.reduceDiv, Nat.reduceBEq,
    Nat.reduceEqDiff, Nat.reduceLeDiff, Nat.reduceLT, Nat.reduceGT, Nat.min_def,
    reduceCtorEq, decide_eq_true_eq, decide_not, not_true, not_false_iff, decide_True, decide_False,
    cond_true, cond_false, Option.isSome, Option.some.injEq, Prod.mk.injEq, mkCell]

set_option maxHeartbeats 1000000 in
theorem dm4e (x0 w : Val) (f : Val → Val) (g : Val → Val → Val) (n : Nat) :
    reevaluateComputedObs (n + 1) (dmT3 x0 w f g) 2 =
      if (!(f x0 == f w)) = true then updateDependents n (dmT4 x0 w f g 0) 2
      else dmT4 x0 w f g 0 := by
  simp only [dmT3, dmT4, dmBodyU, dmBodyV, endUpdate_zero, endUpdate_succ, processUpdateQueue_zero, processUpdateQueue_succ,
    reevaluateComputedObs_zero, reevaluateComputedObs_succ, 
     endUpdateBody, processUpdateQueueBody, reevaluateComputedObsBody,
    updateDependentsBody, readOrWriteObs, obsOf, obsFn, initState,
    breakDependencies, establishDependencies, tryReevaluateObsFn, updateComputedObs,
    runBody, recordDependency, peekValue, levelOf, lookupCell, updCell, bumpCount,
    bumpReported, startUpdate,
    enqueueUpdate, dequeueUpdate, heapPush, heapPop, siftUp, siftDown, insertSorted,
    defaultEq, evalCount, List.find?, List.map, List.foldl, List.filter, List.set,
    List.count, List.countP, List.countP.go,
    List.getD, List.get?, List.dropLast, List.getLast, List.length, List.append_eq,
    List.cons_append, List.nil_append, Option.getD, Option.map,
    beq_self_eq_true, ne_eq, ite_true, ite_false, ite_self, and_self, and_true, true_and,
    eq_self_iff_true, Bool.false_eq_true, Bool.true_eq_false, Bool.not_true, Bool.not_false,
    Nat.reduceAdd, Nat.reduceSub, Nat.reduceMul, Nat.reduceDiv, Nat.reduceBEq,
    Nat.reduceEqDiff, Nat.reduceLeDiff, Nat.reduceLT, Nat.reduceGT, Nat.min_def,
    reduceCtorEq, decide_eq_true_eq, decide_not, not_true, not_false_iff, decide_True, decide_False,
    cond_true, cond_false, Option.isSome, Option.some.injEq, Prod.mk.injEq, mkCell]

set_option maxHeartbeats 1000000 in
theorem dm4f (x0 w : Val) (f : Val → Val) (g : Val → Val → Val) (n : Nat) :
    updateDependents (n + 1) (dmT4 x0 w f g 0) 2 = endUpdate n (dmT4 x0 w f g 1) := by
  simp only [dmT4, dmBodyU, dmBodyV,   processUpdateQueue_zero, processUpdateQueue_succ,
    reevaluateComputedObs_zero, reevaluateComputedObs_succ, updateDependents_zero,
    updateDependents_succ, endUpdateBody, processUpdateQueueBody, reevaluateComputedObsBody,
    updateDependentsBody, readOrWriteObs, obsOf, obsFn, initState,
    breakDependencies, establishDependencies, tryReevaluateObsFn, updateComputedObs,
    runBody, recordDependency, peekValue, levelOf, lookupCell, updCell, bumpCount,
    bumpReported, startUpdate,
    enqueueUpdate, dequeueUpdate, heapPush, heapPop, siftUp, siftDown, insertSorted,
    defaultEq, evalCount, List.find?, List.map, List.foldl, List.filter, List.set,
    List.count, List.countP, List.countP.go,
    List.getD, List.get?, List.dropLast, List.getLast, List.length, List.append_eq,
    List.cons_append, List.nil_append, Option.getD, Option.map,
    beq_self_eq_true, ne_eq, ite_true, ite_false, ite_self, and_self, and_true, true_and,
    eq_self_iff_true, Bool.false_eq_true, Bool.true_eq_false, Bool.not_true, Bool.not_false,
    Nat.reduceAdd, Nat.reduceSub, Nat.reduceMul, Nat.reduceDiv, Nat.reduceBEq,
    Nat.reduceEqDiff, Nat.reduceLeDiff, Nat.reduceLT, Nat.reduceGT, Nat.min_def,
    reduceCtorEq, decide_eq_true_eq, decide_not, not_true, not_false_iff, decide_True, decide_False,
    cond_true, cond_false, Option.isSome, Option.some.injEq, Prod.mk.injEq, mkCell]

set_option maxHeartbeats 1000000 in
theorem dm4g (x0 w : Val) (f : Val → Val) (g : Val → Val → Val) (n : Nat) :
    endUpdate (n + 1) (dmT4 x0 w f g 1) = processUpdateQueue n (dmT4 x0 w f g 0) := by
  simp only [dmT4, dmBodyU, dmBodyV, endUpdate_zero, endUpdate_succ,  
    reevaluateComputedObs_zero, reevaluateComputedObs_succ, updateDependents_zero,
    updateDependents_succ, endUpdateBody, processUpdateQueueBody, reevaluateComputedObsBody,
    updateDependentsBody, readOrWriteObs, obsOf, obsFn, initState,
    breakDependencies, establishDependencies, tryReevaluateObsFn, updateComputedObs,
    runBody, recordDependency, peekValue, levelOf, lookupCell, updCell, bumpCount,
    bumpReported, startUpdate,
    enqueueUpdate, dequeueUpdate, heapPush, heapPop, siftUp, siftDown, insertSorted,
    defaultEq, evalCount, List.find?, List.map, List.foldl, List.filter, List.set,
    List.count, List.countP, List.countP.go,
    List.getD, List.get?, List.dropLast, List.getLast, List.length, List.append_eq,
    List.cons_append, List.nil_append, Option.getD, Option.map,
    beq_self_eq_true, ne_eq, ite_true, ite_false, ite_self, and_self, and_true, true_and,
    eq_self_iff_true, Bool.false_eq_true, Bool.true_eq_false, Bool.not_true, Bool.not_false,
    Nat.reduceAdd, Nat.reduceSub, Nat.reduceMul, Nat.reduceDiv, Nat.reduceBEq,
    Nat.reduceEqDiff, Nat.reduceLeDiff, Nat.reduceLT, Nat.reduceGT, Nat.min_def,
    reduceCtorEq, decide_eq_true_eq, decide_not, not_true, not_false_iff, decide_True, decide_False,
    cond_true, cond_false, Option.isSome, Option.some.injEq, Prod.mk.injEq, mkCell]

set_option maxHeartbeats 1000000 in
theorem dm4h (x0 w : Val) (f : Val → Val) (g : Val → Val → Val) (n : Nat) :
    processUpdateQueue (n + 1) (dmT4 x0 w f g 0) =
      processUpdateQueue n (reevaluateComputedObs n (dmT5 x0 w f g) 3) := by
  simp only [dmT4, dmT5, dmBodyU, dmBodyV, endUpdate_zero, endUpdate_succ, processUpdateQueue_zero, processUpdateQueue_succ,
      updateDependents_zero,
    updateDependents_succ, endUpdateBody, processUpdateQueueBody, reevaluateComputedObsBody,
    updateDependentsBody, readOrWriteObs, obsOf, obsFn, initState,
    breakDependencies, establishDependencies, tryReevaluateObsFn, updateComputedObs,
    runBody, recordDependency, peekValue, levelOf, lookupCell, updCell, bumpCount,
    bumpReported, startUpdate,
    enqueueUpdate, dequeueUpdate, heapPush, heapPop, siftUp, siftDown, insertSorted,
    defaultEq, evalCount, List.find?, List.map, List.foldl, List.filter, List.set,
    List.count, List.countP, List.countP.go,
    List.getD, List.get?, List.dropLast, List.getLast, List.length, List.append_eq,
    List.cons_append, List.nil_append, Option.getD, Option.map,
    beq_self_eq_true, ne_eq, ite_true, ite_false, ite_self, and_self, and_true, true_and,
    eq_self_iff_true, Bool.false_eq_true, Bool.true_eq_false, Bool.not_true, Bool.not_false,
    Nat.reduceAdd, Nat.reduceSub, Nat.reduceMul, Nat.reduceDiv, Nat.reduceBEq,
    Nat.reduceEqDiff, Nat.reduceLeDiff, Nat.reduceLT, Nat.reduceGT, Nat.min_def,
    reduceCtorEq, decide_eq_true_eq, decide_not, not_true, not_false_iff, decide_True, decide_False,
    cond_true, cond_false, Option.isSome, Option.some.injEq, Prod.mk.injEq, mkCell]

set_option maxHeartbeats 1000000 in
theorem dm4i (x0 w : Val) (f : Val → Val) (g : Val → Val → Val) (n : Nat) :
    reevaluateComputedObs (n + 2) (dmT5 x0 w f g) 3 = dmF w f g := by
  simp only [dmT5, dmF, dmBodyU, dmBodyV, endUpdate_zero, endUpdate_succ, processUpdateQueue_zero, processUpdateQueue_succ,
    reevaluateComputedObs_zero, reevaluateComputedObs_succ, updateDependents_zero,
    updateDependents_succ, endUpdateBody, processUpdateQueueBody, reevaluateComputedObsBody,
    updateDependentsBody, readOrWriteObs, obsOf, obsFn, initState,
    breakDependencies, establishDependencies, tryReevaluateObsFn, updateComputedObs,
    runBody, recordDependency, peekValue, levelOf, lookupCell, updCell, bumpCount,
    bumpReported, startUpdate,
    enqueueUpdate, dequeueUpdate, heapPush, heapPop, siftUp, siftDown, insertSorted,
    defaultEq, evalCount, List.find?, List.map, List.foldl, List.filter, List.set,
    List.count, List.countP, List.countP.go,
    List.getD, List.get?, List.dropLast, List.getLast, List.length, List.append_eq,
    List.cons_append, List.nil_append, Option.getD, Option.map,
    beq_self_eq_true, ne_eq, ite_true, ite_false, ite_self, and_self, and_true, true_and,
    eq_self_iff_true, Bool.false_eq_true, Bool.true_eq_false, Bool.not_true, Bool.not_false,
    Nat.reduceAdd, Nat.reduceSub, Nat.reduceMul, Nat.reduceDiv, Nat.reduceBEq,
    Nat.reduceEqDiff, Nat.reduceLeDiff, Nat.reduceLT, Nat.reduceGT, Nat.min_def,
    reduceCtorEq, decide_eq_true_eq, decide_not, not_true, not_false_iff, decide_True, decide_False,
    cond_true, cond_false, Option.isSome, Option.some.injEq, Prod.mk.injEq, mkCell]

theorem dmRun (x0 w : Val) (f : Val → Val) (g : Val → Val → Val) (h : x0 ≠ w) :
    readOrWriteObs 30 (dmS3 x0 f g) 1 (some w) = (dmF w f g, .ok w) := by
  have hx : (x0 == w) = false := beq_eq_false_iff_ne.mpr h
  have hqF : (dmF w f g).updateQ = [] := rfl
  rw [dm4a x0 w f g hx]
  rw [dm4b, dm4c, dm4d, dm4e]
  by_cases hfc : f x0 = f w
  · simp only [hfc, beq_self_eq_true, Bool.not_true, Bool.false_eq_true, ite_false]
    rw [dm4h, dm4i, processUpdateQueue_empty _ _ hqF]
    simp only [dmF, mkCell, peekValue, lookupCell, List.find?, Nat.reduceBEq, Option.map, beq_self_eq_true]
  · have hb : (f x0 == f w) = false := beq_eq_false_iff_ne.mpr hfc
    simp only [hb, Bool.not_false, ite_true]
    rw [dm4f, dm4g, dm4h, dm4i, processUpdateQueue_empty _ _ hqF,
        processUpdateQueue_empty _ _ hqF]
    simp only [dmF, mkCell, peekValue, lookupCell, List.find?, Nat.reduceBEq, Option.map, beq_self_eq_true]

def diamondSetup (x0 : Val) (f : Val → Val) (g : Val → Val → Val) : ObsState :=
  let (s1, x) := obsOf initState x0 defaultEq
  let (s2, u) := obsFn 30 s1 (.readThen x fun xv => .ret (f xv)) defaultEq
  let (s3, _) := obsFn 30 s2 (.readThen x fun xv => .readThen u fun uv => .ret (g xv uv)) defaultEq
  s3

def diamondWrite (x0 w : Val) (f : Val → Val) (g : Val → Val → Val) :
    ObsState × Except String Val :=
  readOrWriteObs 30 (diamondSetup x0 f g) 1 (some w)

theorem diamondSetup_eq (x0 : Val) (f : Val → Val) (g : Val → Val → Val) :
    diamondSetup x0 f g = dmS3 x0 f g := by
  simp only [diamondSetup, dm1, dm2, dm3]

/-- C1: with X mutable and computed cells U = f(X), V = g(X, U), a
single write to X of a value unequal (under the default equality) to
the old one, followed by the flush it triggers, runs U's body exactly
once and V's body exactly once, V's resulting value is computed from
U's updated value `f w` (not the stale `f x0`), and the write returns
normally with the written value. -/
theorem C1_diamond (x0 w : Val) (f : Val → Val) (g : Val → Val → Val) (h : x0 ≠ w) :
    evalCount (diamondWrite x0 w f g).1 2 = evalCount (diamondSetup x0 f g) 2 + 1 ∧
    evalCount (diamondWrite x0 w f g).1 3 = evalCount (diamondSetup x0 f g) 3 + 1 ∧
    peekValue (diamondWrite x0 w f g).1 2 = f w ∧
    peekValue (diamondWrite x0 w f g).1 3 = g w (f w) ∧
    (diamondWrite x0 w f g).2 = .ok w := by
  have hrun := dmRun x0 w f g h
  simp only [diamondWrite, diamondSetup_eq, hrun]
  simp only [dmS3, dmF, mkCell, evalCount, peekValue,
    lookupCell, List.find?, Nat.reduceBEq, Option.map, List.count, List.countP, List.countP.go,
    cond_true, cond_false, beq_self_eq_true, Nat.reduceAdd, and_self, and_true, true_and,
    eq_self_iff_true]

/-- Witness for C1 at a concrete input. -/
theorem C1_diamond_witness :
    evalCount (diamondWrite (some 0) (some 1) (fun v => v) (fun _ b => b)).1 2 =
      evalCount (diamondSetup (some 0) (fun v => v) (fun _ b => b)) 2 + 1 ∧
    evalCount (diamondWrite (some 0) (some 1) (fun v => v) (fun _ b => b)).1 3 =
      evalCount (diamondSetup (some 0) (fun v => v) (fun _ b => b)) 3 + 1 ∧
    peekValue (diamondWrite (some 0) (some 1) (fun v => v) (fun _ b => b)).1 2 = some 1 ∧
    peekValue (diamondWrite (some 0) (some 1) (fun v => v) (fun _ b => b)).1 3 = some 1 ∧
    (diamondWrite (some 0) (some 1) (fun v => v) (fun _ b => b)).2 = .ok (some 1) :=
  C1_diamond (some 0) (some 1) (fun v => v) (fun _ b => b) (by decide)

theorem lookupCell_updCell (s : ObsState) (i : Nat) (f : Cell → Cell) :
    lookupCell (updCell s i f) i = (lookupCell s i).map f := by
  simp only [lookupCell, updCell]
  induction s.cells with
  | nil => rfl
  | cons p l ih =>
    by_cases hp : p.1 == i
    · simp [List.find?, hp]
    · simp only [List.map, List.find?, hp, if_neg, Bool.false_eq_true, ite_false]
      simpa using ih

/-- C3: invoking a computed observable as a setter (the one-argument arm
of `readOrWriteObs`) throws synchronously and leaves the whole state —
value, dependency links, queue — unchanged. -/
theorem C3_write_computed_throws (fuel : Nat) (s : ObsState) (i : Nat) (v : Val) (c : Cell)
    (hc : lookupCell s i = some c) (hcomp : c.fnBody.isSome = true) :
    readOrWriteObs fuel s i (some v) =
      (s, .error "Computed observables cannot be assigned to.") := by
  simp only [readOrWriteObs, hc, hcomp, ite_true]

/-- Witness for C3 at a concrete input: the computed cell of
`dmS2 (some 0) (fun v => v)` cannot be written. -/
theorem C3_write_computed_throws_witness :
    readOrWriteObs 5 (dmS2 (some 0) (fun v => v)) 2 (some (some 7)) =
      (dmS2 (some 0) (fun v => v), .error "Computed observables cannot be assigned to.") :=
  C3_write_computed_throws 5 (dmS2 (some 0) (fun v => v)) 2 (some 7)
    (mkCell (some 0) defaultEq (some (dmBodyU (fun v => v))) (some [1]) none 1 false)
    (by rfl) (by rfl)

/-- C4 counterexample: a mutable cell whose equality predicate declares
`some 1` and `some 2` equal.  Writing `some 2` schedules nothing and
runs no body, but the stored value returned by subsequent peeks is the
newly written `some 2`, not the old `some 1` — so the written-equal
value is not a complete no-op as claimed. -/
theorem C4_counterexample :
    peekValue (readOrWriteObs 5
      { cells := [(1, mkCell (some 1) (fun _ _ => true) none none none 0 false)],
        updateQ := [], updateDepth := 0, tracking := none, nextID := 2,
        evalLog := [], reported := 0 } 1 (some (some 2))).1 1 = some 2 ∧
    peekValue
      { cells := [(1, mkCell (some 1) (fun _ _ => true) none none none 0 false)],
        updateQ := [], updateDepth := 0, tracking := none, nextID := 2,
        evalLog := [], reported := 0 } 1 = some 1 ∧
    ((fun (_ _ : Val) => true) (some 1) (some 2) = true) ∧
    (readOrWriteObs 5
      { cells := [(1, mkCell (some 1) (fun _ _ => true) none none none 0 false)],
        updateQ := [], updateDepth := 0, tracking := none, nextID := 2,
        evalLog := [], reported := 0 } 1 (some (some 2))).1.evalLog = [] := by
  constructor
  · rfl
  · exact ⟨rfl, rfl, rfl⟩

/-- C4 (amended): writing a mutable cell with a value equal under its
equality predicate to the current value schedules no dependent and runs
no body — the resulting state is the old state with only that cell's
`value` field replaced by the written value (so under the default `===`
equality the write is observationally a no-op). -/
theorem C4_eq_write_no_propagation (fuel : Nat) (s : ObsState) (i : Nat) (v : Val) (c : Cell)
    (hc : lookupCell s i = some c) (hm : c.fnBody = none)
    (heq : c.eq c.value v = true) :
    readOrWriteObs fuel s i (some v) =
      (updCell s i (fun cc => { cc with value := v }), .ok v) := by
  simp only [readOrWriteObs, hc, hm, Option.isSome, heq, ite_true, Bool.false_eq_true,
    ite_false, peekValue, lookupCell_updCell, Option.map]

/-- Witness for the amended C4 at a concrete input. -/
theorem C4_eq_write_no_propagation_witness :
    readOrWriteObs 5
      { cells := [(1, mkCell (some 1) (fun _ _ => true) none none none 0 false)],
        updateQ := [], updateDepth := 0, tracking := none, nextID := 2,
        evalLog := [], reported := 0 } 1 (some (some 2)) =
      (updCell
        { cells := [(1, mkCell (some 1) (fun _ _ => true) none none none 0 false)],
          updateQ := [], updateDepth := 0, tracking := none, nextID := 2,
          evalLog := [], reported := 0 } 1 (fun cc => { cc with value := some 2 }),
       .ok (some 2)) :=
  C4_eq_write_no_propagation 5 _ 1 (some 2)
    (mkCell (some 1) (fun _ _ => true) none none none 0 false) (by rfl) (by rfl) (by rfl)

/-!
Scenario for claim C10: a mutable observable X (id 1) with a computed
dependent U = f(X) (id 2), built as in C1; X is then disposed and
written afterwards.
-/

/-- Setup for C10: `Obs.of` then `Obs.fn` reading it. -/
def pairSetup (x0 : Val) (f : Val → Val) : ObsState :=
  let (s1, x) := obsOf initState x0 defaultEq
  (obsFn 30 s1 (.readThen x fun xv => .ret (f xv)) defaultEq).1

theorem pairSetup_eq (x0 : Val) (f : Val → Val) : pairSetup x0 f = dmS2 x0 f := by
  simp only [pairSetup, dm1, dm2]

/-- State after `Obs.dispose` of the mutable cell: value cleared,
dependent set emptied; the cell itself remains in place. -/
def c10dispS (x0 : Val) (f : Val → Val) : ObsState :=
  { cells := [(1, mkCell none defaultEq none none (some []) 0 false),
              (2, mkCell (f x0) defaultEq (some (dmBodyU f)) (some [1]) none 1 false)],
    updateQ := [], updateDepth := 0, tracking := none, nextID := 3,
    evalLog := [2], reported := 0 }

theorem c10_dispose_eq (x0 : Val) (f : Val → Val) :
    dispose (dmS2 x0 f) 1 = c10dispS x0 f := by
  simp only [dispose, dmS2, c10dispS, dmBodyU, endUpdate_zero, endUpdate_succ, processUpdateQueue_zero, processUpdateQueue_succ,
    reevaluateComputedObs_zero, reevaluateComputedObs_succ, updateDependents_zero,
    updateDependents_succ, endUpdateBody, processUpdateQueueBody, reevaluateComputedObsBody,
    updateDependentsBody, readOrWriteObs, obsOf, obsFn, initState,
    breakDependencies, establishDependencies, tryReevaluateObsFn, updateComputedObs,
    runBody, recordDependency, peekValue, levelOf, lookupCell, updCell, bumpCount,
    bumpReported, startUpdate,
    enqueueUpdate, dequeueUpdate, heapPush, heapPop, siftUp, siftDown, insertSorted,
    defaultEq, evalCount, List.find?, List.map, List.foldl, List.filter, List.set,
    List.count, List.countP, List.countP.go,
    List.getD, List.get?, List.dropLast, List.getLast, List.length, List.append_eq,
    List.cons_append, List.nil_append, Option.getD, Option.map,
    beq_self_eq_true, ne_eq, ite_true, ite_false, ite_self, and_self, and_true, true_and,
    eq_self_iff_true, Bool.false_eq_true, Bool.true_eq_false, Bool.not_true, Bool.not_false,
    Nat.reduceAdd, Nat.reduceSub, Nat.reduceMul, Nat.reduceDiv, Nat.reduceBEq,
    Nat.reduceEqDiff, Nat.reduceLeDiff, Nat.reduceLT, Nat.reduceGT, Nat.min_def,
    reduceCtorEq, decide_eq_true_eq, decide_not, not_true, not_false_iff, decide_True, decide_False,
    cond_true, cond_false, Option.isSome, Option.some.injEq, Prod.mk.injEq, mkCell]

/-- State after writing `w` to the disposed mutable cell. -/
def c10F (x0 w : Val) (f : Val → Val) : ObsState :=
  { cells := [(1, mkCell w defaultEq none none (some []) 0 false),
              (2, mkCell (f x0) defaultEq (some (dmBodyU f)) (some [1]) none 1 false)],
    updateQ := [], updateDepth := 0, tracking := none, nextID := 3,
    evalLog := [2], reported := 0 }

set_option maxHeartbeats 1000000 in
theorem c10_write_eq (x0 w : Val) (f : Val → Val) :
    readOrWriteObs 30 (c10dispS x0 f) 1 (some w) = (c10F x0 w f, .ok w) := by
  simp only [c10dispS, c10F, dmBodyU, endUpdate_zero, endUpdate_succ, processUpdateQueue_zero, processUpdateQueue_succ,
    reevaluateComputedObs_zero, reevaluateComputedObs_succ, updateDependents_zero,
    updateDependents_succ, endUpdateBody, processUpdateQueueBody, reevaluateComputedObsBody,
    updateDependentsBody, readOrWriteObs, obsOf, obsFn, initState,
    breakDependencies, establishDependencies, tryReevaluateObsFn, updateComputedObs,
    runBody, recordDependency, peekValue, levelOf, lookupCell, updCell, bumpCount,
    bumpReported, startUpdate,
    enqueueUpdate, dequeueUpdate, heapPush, heapPop, siftUp, siftDown, insertSorted,
    defaultEq, evalCount, List.find?, List.map, List.foldl, List.filter, List.set,
    List.count, List.countP, List.countP.go,
    List.getD, List.get?, List.dropLast, List.getLast, List.length, List.append_eq,
    List.cons_append, List.nil_append, Option.getD, Option.map,
    beq_self_eq_true, ne_eq, ite_true, ite_false, ite_self, and_self, and_true, true_and,
    eq_self_iff_true, Bool.false_eq_true, Bool.true_eq_false, Bool.not_true, Bool.not_false,
    Nat.reduceAdd, Nat.reduceSub, Nat.reduceMul, Nat.reduceDiv, Nat.reduceBEq,
    Nat.reduceEqDiff, Nat.reduceLeDiff, Nat.reduceLT, Nat.reduceGT, Nat.min_def,
    reduceCtorEq, decide_eq_true_eq, decide_not, not_true, not_false_iff, decide_True, decide_False,
    cond_true, cond_false, Option.isSome, Option.some.injEq, Prod.mk.injEq, mkCell]

/-- The write to X after disposal, performed on the scenario built by
the public constructors. -/
def c10Run (x0 w : Val) (f : Val → Val) : ObsState × Except String Val :=
  readOrWriteObs 30 (dispose (pairSetup x0 f) 1) 1 (some w)

/-- C10: writing a disposed mutable cell does not raise an error; the
written value is stored and returned by subsequent reads and peeks; no
body is evaluated by the write (the disposed cell's dependent set is
empty but the cell remains readable and writable). -/
theorem C10_write_after_dispose (x0 w : Val) (f : Val → Val) :
    (c10Run x0 w f).2 = .ok w ∧
    peekValue (c10Run x0 w f).1 1 = w ∧
    (readOrWriteObs 30 (c10Run x0 w f).1 1 none).2 = .ok w ∧
    (c10Run x0 w f).1.evalLog = (pairSetup x0 f).evalLog ∧
    lookupCell (dispose (pairSetup x0 f) 1) 1 =
      some (mkCell none defaultEq none none (some []) 0 false) := by
  have h1 := pairSetup_eq x0 f
  have h2 := c10_dispose_eq x0 f
  have h3 := c10_write_eq x0 w f
  simp only [c10Run, h1, h2, h3]
  simp only [c10F, c10dispS, mkCell, peekValue, lookupCell, readOrWriteObs, recordDependency,
    List.find?, Nat.reduceBEq, Option.map, beq_self_eq_true, and_self, and_true, true_and,
    eq_self_iff_true, dmS2, pairSetup, dm1, dm2]

/-!
Scenario for claim C7: a chain X (id 1, mutable) → U = f(X) (id 2) →
V = g(U) (id 3); V is disposed, then X is written.
-/

def c7BodyV (g : Val → Val) : Body := .readThen 2 fun uv => .ret (g uv)

def c7S3 (x0 : Val) (f g : Val → Val) : ObsState :=
  { cells := [(1, mkCell x0 defaultEq none none (some [2]) 0 false),
              (2, mkCell (f x0) defaultEq (some (dmBodyU f)) (some [1]) (some [3]) 1 false),
              (3, mkCell (g (f x0)) defaultEq (some (c7BodyV g)) (some [2]) none 2 false)],
    updateQ := [], updateDepth := 0, tracking := none, nextID := 4,
    evalLog := [2, 3], reported := 0 }

set_option maxHeartbeats 1000000 in
theorem c7s3_eq (x0 : Val) (f g : Val → Val) :
    obsFn 30 (dmS2 x0 f) (.readThen 2 fun uv => .ret (g uv)) defaultEq =
      (c7S3 x0 f g, 3) := by
  simp only [dmS2, c7S3, dmBodyU, c7BodyV, endUpdate_zero, endUpdate_succ, processUpdateQueue_zero, processUpdateQueue_succ,
    reevaluateComputedObs_zero, reevaluateComputedObs_succ, updateDependents_zero,
    updateDependents_succ, endUpdateBody, processUpdateQueueBody, reevaluateComputedObsBody,
    updateDependentsBody, readOrWriteObs, obsOf, obsFn, initState,
    breakDependencies, establishDependencies, tryReevaluateObsFn, updateComputedObs,
    runBody, recordDependency, peekValue, levelOf, lookupCell, updCell, bumpCount,
    bumpReported, startUpdate,
    enqueueUpdate, dequeueUpdate, heapPush, heapPop, siftUp, siftDown, insertSorted,
    defaultEq, evalCount, List.find?, List.map, List.foldl, List.filter, List.set,
    List.count, List.countP, List.countP.go,
    List.getD, List.get?, List.dropLast, List.getLast, List.length, List.append_eq,
    List.cons_append, List.nil_append, Option.getD, Option.map,
    beq_self_eq_true, ne_eq, ite_true, ite_false, ite_self, and_self, and_true, true_and,
    eq_self_iff_true, Bool.false_eq_true, Bool.true_eq_false, Bool.not_true, Bool.not_false,
    Nat.reduceAdd, Nat.reduceSub, Nat.reduceMul, Nat.reduceDiv, Nat.reduceBEq,
    Nat.reduceEqDiff, Nat.reduceLeDiff, Nat.reduceLT, Nat.reduceGT, Nat.min_def,
    reduceCtorEq, decide_eq_true_eq, decide_not, not_true, not_false_iff, decide_True, decide_False,
    cond_true, cond_false, Option.isSome, Option.some.injEq, Prod.mk.injEq, mkCell]

/-- Setup for C7 via the public constructors. -/
def c7Setup (x0 : Val) (f g : Val → Val) : ObsState :=
  let (s1, x) := obsOf initState x0 defaultEq
  let (s2, u) := obsFn 30 s1 (.readThen x fun xv => .ret (f xv)) defaultEq
  (obsFn 30 s2 (.readThen u fun uv => .ret (g uv)) defaultEq).1

theorem c7Setup_eq (x0 : Val) (f g : Val → Val) : c7Setup x0 f g = c7S3 x0 f g := by
  simp only [c7Setup, dm1, dm2, c7s3_eq]

/-- State after `Obs.dispose` of V: V's value cleared and all links
between V and its dependency U removed in both directions. -/
def c7D (x0 : Val) (f g : Val → Val) : ObsState :=
  { cells := [(1, mkCell x0 defaultEq none none (some [2]) 0 false),
              (2, mkCell (f x0) defaultEq (some (dmBodyU f)) (some [1]) (some []) 1 false),
              (3, mkCell none defaultEq (some (c7BodyV g)) (some []) (some []) 2 false)],
    updateQ := [], updateDepth := 0, tracking := none, nextID := 4,
    evalLog := [2, 3], reported := 0 }

set_option maxHeartbeats 1000000 in
theorem c7_dispose_eq (x0 : Val) (f g : Val → Val) :
    dispose (c7S3 x0 f g) 3 = c7D x0 f g := by
  simp only [dispose, c7S3, c7D, dmBodyU, c7BodyV, endUpdate_zero, endUpdate_succ, processUpdateQueue_zero, processUpdateQueue_succ,
    reevaluateComputedObs_zero, reevaluateComputedObs_succ, updateDependents_zero,
    updateDependents_succ, endUpdateBody, processUpdateQueueBody, reevaluateComputedObsBody,
    updateDependentsBody, readOrWriteObs, obsOf, obsFn, initState,
    breakDependencies, establishDependencies, tryReevaluateObsFn, updateComputedObs,
    runBody, recordDependency, peekValue, levelOf, lookupCell, updCell, bumpCount,
    bumpReported, startUpdate,
    enqueueUpdate, dequeueUpdate, heapPush, heapPop, siftUp, siftDown, insertSorted,
    defaultEq, evalCount, List.find?, List.map, List.foldl, List.filter, List.set,
    List.count, List.countP, List.countP.go,
    List.getD, List.get?, List.dropLast, List.getLast, List.length, List.append_eq,
    List.cons_append, List.nil_append, Option.getD, Option.map,
    beq_self_eq_true, ne_eq, ite_true, ite_false, ite_self, and_self, and_true, true_and,
    eq_self_iff_true, Bool.false_eq_true, Bool.true_eq_false, Bool.not_true, Bool.not_false,
    Nat.reduceAdd, Nat.reduceSub, Nat.reduceMul, Nat.reduceDiv, Nat.reduceBEq,
    Nat.reduceEqDiff, Nat.reduceLeDiff, Nat.reduceLT, Nat.reduceGT, Nat.min_def,
    reduceCtorEq, decide_eq_true_eq, decide_not, not_true, not_false_iff, decide_True, decide_False,
    cond_true, cond_false, Option.isSome, Option.some.injEq, Prod.mk.injEq, mkCell]

/-- State after the write to X: U re-evaluated once with the new value,
V untouched. -/
def c7F (w : Val) (f g : Val → Val) : ObsState :=
  { cells := [(1, mkCell w defaultEq none none (some [2]) 0 false),
              (2, mkCell (f w) defaultEq (some (dmBodyU f)) (some [1]) (some []) 1 false),
              (3, mkCell none defaultEq (some (c7BodyV g)) (some []) (some []) 2 false)],
    updateQ := [], updateDepth := 0, tracking := none, nextID := 4,
    evalLog := [2, 3, 2], reported := 0 }

set_option maxHeartbeats 2000000 in
theorem c7_write_eq (x0 w : Val) (f g : Val → Val) (hx : (x0 == w) = false) :
    readOrWriteObs 30 (c7D x0 f g) 1 (some w) = (c7F w f g, .ok w) := by
  simp only [c7D, c7F, dmBodyU, c7BodyV, hx, endUpdate_zero, endUpdate_succ, processUpdateQueue_zero, processUpdateQueue_succ,
    reevaluateComputedObs_zero, reevaluateComputedObs_succ, updateDependents_zero,
    updateDependents_succ, endUpdateBody, processUpdateQueueBody, reevaluateComputedObsBody,
    updateDependentsBody, readOrWriteObs, obsOf, obsFn, initState,
    breakDependencies, establishDependencies, tryReevaluateObsFn, updateComputedObs,
    runBody, recordDependency, peekValue, levelOf, lookupCell, updCell, bumpCount,
    bumpReported, startUpdate,
    enqueueUpdate, dequeueUpdate, heapPush, heapPop, siftUp, siftDown, insertSorted,
    defaultEq, evalCount, List.find?, List.map, List.foldl, List.filter, List.set,
    List.count, List.countP, List.countP.go,
    List.getD, List.get?, List.dropLast, List.getLast, List.length, List.append_eq,
    List.cons_append, List.nil_append, Option.getD, Option.map,
    beq_self_eq_true, ne_eq, ite_true, ite_false, ite_self, and_self, and_true, true_and,
    eq_self_iff_true, Bool.false_eq_true, Bool.true_eq_false, Bool.not_true, Bool.not_false,
    Nat.reduceAdd, Nat.reduceSub, Nat.reduceMul, Nat.reduceDiv, Nat.reduceBEq,
    Nat.reduceEqDiff, Nat.reduceLeDiff, Nat.reduceLT, Nat.reduceGT, Nat.min_def,
    reduceCtorEq, decide_eq_true_eq, decide_not, not_true, not_false_iff, decide_True, decide_False,
    cond_true, cond_false, Option.isSome, Option.some.injEq, Prod.mk.injEq, mkCell]

/-- C7: after disposing the computed cell V (which depends on U), a
write to U's underlying mutable source X re-evaluates U but never runs
V's body again; peeking V yields the cleared value; disposal removed
both directions of the U–V links. -/
theorem C7_dispose_severs (x0 w : Val) (f g : Val → Val) (h : x0 ≠ w) :
    evalCount (readOrWriteObs 30 (dispose (c7Setup x0 f g) 3) 1 (some w)).1 3 =
      evalCount (c7Setup x0 f g) 3 ∧
    peekValue (readOrWriteObs 30 (dispose (c7Setup x0 f g) 3) 1 (some w)).1 3 = none ∧
    (lookupCell (dispose (c7Setup x0 f g) 3) 3).map
      (fun c : Cell => (c.dependencies, c.dependents)) = some (some [], some []) ∧
    (lookupCell (dispose (c7Setup x0 f g) 3) 2).map
      (fun c : Cell => c.dependents) = some (some []) ∧
    (readOrWriteObs 30 (dispose (c7Setup x0 f g) 3) 1 (some w)).2 = .ok w ∧
    evalCount (readOrWriteObs 30 (dispose (c7Setup x0 f g) 3) 1 (some w)).1 2 =
      evalCount (c7Setup x0 f g) 2 + 1 := by
  have hx : (x0 == w) = false := beq_eq_false_iff_ne.mpr h
  have h1 := c7Setup_eq x0 f g
  have h2 := c7_dispose_eq x0 f g
  have h3 := c7_write_eq x0 w f g hx
  simp only [h1, h2, h3]
  simp only [c7F, c7S3, c7D, mkCell, evalCount, peekValue, lookupCell, List.find?,
    Nat.reduceBEq, Option.map, List.count, List.countP, List.countP.go, cond_true, cond_false,
    beq_self_eq_true, Nat.reduceAdd, and_self, and_true, true_and, eq_self_iff_true]

/-- Witness for C7 at a concrete input. -/
theorem C7_dispose_severs_witness :
    evalCount (readOrWriteObs 30 (dispose (c7Setup (some 0) (fun v => v) (fun v => v)) 3) 1
      (some (some 1))).1 3 = evalCount (c7Setup (some 0) (fun v => v) (fun v => v)) 3 ∧
    peekValue (readOrWriteObs 30 (dispose (c7Setup (some 0) (fun v => v) (fun v => v)) 3) 1
      (some (some 1))).1 3 = none ∧
    (lookupCell (dispose (c7Setup (some 0) (fun v => v) (fun v => v)) 3) 3).map
      (fun c : Cell => (c.dependencies, c.dependents)) = some (some [], some []) ∧
    (lookupCell (dispose (c7Setup (some 0) (fun v => v) (fun v => v)) 3) 2).map
      (fun c : Cell => c.dependents) = some (some []) ∧
    (readOrWriteObs 30 (dispose (c7Setup (some 0) (fun v => v) (fun v => v)) 3) 1
      (some (some 1))).2 = .ok (some 1) ∧
    evalCount (readOrWriteObs 30 (dispose (c7Setup (some 0) (fun v => v) (fun v => v)) 3) 1
      (some (some 1))).1 2 = evalCount (c7Setup (some 0) (fun v => v) (fun v => v)) 2 + 1 :=
  C7_dispose_severs (some 0) (some 1) (fun v => v) (fun v => v) (by decide)


/-!
Scenario for claim C5 (batching): mutable observables X (id 1) and Y
(id 2) both read by computed U = f(X, Y) (id 3); two writes X := a,
Y := b inside one `startUpdate`/`endUpdate` region, nested `k` extra
levels deep.
-/

def c5Body (f : Val → Val → Val) : Body :=
  .readThen 1 fun a => .readThen 2 fun b => .ret (f a b)

/-- Iterated `Obs.startUpdate`. -/
def startUpdates : Nat → ObsState → ObsState
  | 0, s => s
  | n + 1, s => startUpdates n (startUpdate s)

/-- Iterated `Obs.endUpdate`. -/
def endUpdates : Nat → ObsState → ObsState
  | 0, s => s
  | n + 1, s => endUpdates n (endUpdate 30 s)

def c5S2 (x0 y0 : Val) : ObsState :=
  { cells := [(1, mkCell x0 defaultEq none none none 0 false),
              (2, mkCell y0 defaultEq none none none 0 false)],
    updateQ := [], updateDepth := 0, tracking := none, nextID := 3,
    evalLog := [], reported := 0 }

theorem c5s2_eq (x0 y0 : Val) : obsOf (dmS1 x0) y0 defaultEq = (c5S2 x0 y0, 2) := by
  simp only [obsOf, dmS1, c5S2, mkCell, List.cons_append, List.nil_append, Nat.reduceAdd]

/-- Setup state with `d` open batch regions. -/
def c5S (x0 y0 : Val) (f : Val → Val → Val) (d : Nat) : ObsState :=
  { cells := [(1, mkCell x0 defaultEq none none (some [3]) 0 false),
              (2, mkCell y0 defaultEq none none (some [3]) 0 false),
              (3, mkCell (f x0 y0) defaultEq (some (c5Body f)) (some [1, 2]) none 1 false)],
    updateQ := [], updateDepth := d, tracking := none, nextID := 4,
    evalLog := [3], reported := 0 }

set_option maxHeartbeats 1000000 in
theorem c5s3_eq (x0 y0 : Val) (f : Val → Val → Val) :
    obsFn 30 (c5S2 x0 y0) (.readThen 1 fun a => .readThen 2 fun b => .ret (f a b)) defaultEq =
      (c5S x0 y0 f 0, 3) := by
  simp only [c5S2, c5S, c5Body, endUpdate_zero, endUpdate_succ, processUpdateQueue_zero, processUpdateQueue_succ,
    reevaluateComputedObs_zero, reevaluateComputedObs_succ, updateDependents_zero,
    updateDependents_succ, endUpdateBody, processUpdateQueueBody, reevaluateComputedObsBody,
    updateDependentsBody, readOrWriteObs, obsOf, obsFn, initState,
    breakDependencies, establishDependencies, tryReevaluateObsFn, updateComputedObs,
    runBody, recordDependency, peekValue, levelOf, lookupCell, updCell, bumpCount,
    bumpReported, startUpdate,
    enqueueUpdate, dequeueUpdate, heapPush, heapPop, siftUp, siftDown, insertSorted,
    defaultEq, evalCount, List.find?, List.map, List.foldl, List.filter, List.set,
    List.count, List.countP, List.countP.go,
    List.getD, List.get?, List.dropLast, List.getLast, List.length, List.append_eq,
    List.cons_append, List.nil_append, Option.getD, Option.map,
    beq_self_eq_true, ne_eq, ite_true, ite_false, ite_self, and_self, and_true, true_and,
    eq_self_iff_true, Bool.false_eq_true, Bool.true_eq_false, Bool.not_true, Bool.not_false,
    Nat.reduceAdd, Nat.reduceSub, Nat.reduceMul, Nat.reduceDiv, Nat.reduceBEq,
    Nat.reduceEqDiff, Nat.reduceLeDiff, Nat.reduceLT, Nat.reduceGT, Nat.min_def,
    reduceCtorEq, decide_eq_true_eq, decide_not, not_true, not_false_iff, decide_True, decide_False,
    cond_true, cond_false, Option.isSome, Option.some.injEq, Prod.mk.injEq, mkCell]

/-- Setup for C5 via the public constructors. -/
def c5Setup (x0 y0 : Val) (f : Val → Val → Val) : ObsState :=
  let (s1, x) := obsOf initState x0 defaultEq
  let (s2, y) := obsOf s1 y0 defaultEq
  (obsFn 30 s2 (.readThen x fun a => .readThen y fun b => .ret (f a b)) defaultEq).1

theorem c5Setup_eq (x0 y0 : Val) (f : Val → Val → Val) :
    c5Setup x0 y0 f = c5S x0 y0 f 0 := by
  simp only [c5Setup, dm1, c5s2_eq, c5s3_eq]

theorem startUpdates_open (x0 y0 : Val) (f : Val → Val → Val) (k : Nat) :
    startUpdates k (c5S x0 y0 f 0) = c5S x0 y0 f k := by
  have general : ∀ n s, startUpdates n s = { s with updateDepth := s.updateDepth + n } := by
    intro n
    induction n with
    | zero => intro s; simp [startUpdates]
    | succ m ih =>
      intro s
      simp only [startUpdates, startUpdate, ih]
      simp [Nat.add_assoc, Nat.add_comm 1 m]
  rw [general]
  simp [c5S]

/-- X written (or X and Y written) inside the batch, U queued, depth `d`. -/
def c5WX (x0 y0 a : Val) (f : Val → Val → Val) (d : Nat) : ObsState :=
  { cells := [(1, mkCell a defaultEq none none (some [3]) 0 false),
              (2, mkCell y0 defaultEq none none (some [3]) 0 false),
              (3, mkCell (f x0 y0) defaultEq (some (c5Body f)) (some [1, 2]) none 1 true)],
    updateQ := [3], updateDepth := d, tracking := none, nextID := 4,
    evalLog := [3], reported := 0 }

def c5W (x0 y0 a b : Val) (f : Val → Val → Val) (d : Nat) : ObsState :=
  { cells := [(1, mkCell a defaultEq none none (some [3]) 0 false),
              (2, mkCell b defaultEq none none (some [3]) 0 false),
              (3, mkCell (f x0 y0) defaultEq (some (c5Body f)) (some [1, 2]) none 1 true)],
    updateQ := [3], updateDepth := d, tracking := none, nextID := 4,
    evalLog := [3], reported := 0 }

set_option maxHeartbeats 1000000 in
theorem c5_writeX_front (x0 y0 a : Val) (f : Val → Val → Val) (k : Nat)
    (hx : (x0 == a) = false) :
    readOrWriteObs 30 (c5S x0 y0 f (k + 1)) 1 (some a) =
      (endUpdate 29 (c5WX x0 y0 a f (k + 2)),
       .ok (peekValue (endUpdate 29 (c5WX x0 y0 a f (k + 2))) 1)) := by
  simp only [c5S, c5WX, c5Body, hx, Nat.add_eq,   processUpdateQueue_zero, processUpdateQueue_succ,
    reevaluateComputedObs_zero, reevaluateComputedObs_succ, updateDependents_zero,
    updateDependents_succ, endUpdateBody, processUpdateQueueBody, reevaluateComputedObsBody,
    updateDependentsBody, readOrWriteObs, obsOf, obsFn, initState,
    breakDependencies, establishDependencies, tryReevaluateObsFn, updateComputedObs,
    runBody, recordDependency, peekValue, levelOf, lookupCell, updCell, bumpCount,
    bumpReported, startUpdate,
    enqueueUpdate, dequeueUpdate, heapPush, heapPop, siftUp, siftDown, insertSorted,
    defaultEq, evalCount, List.find?, List.map, List.foldl, List.filter, List.set,
    List.count, List.countP, List.countP.go,
    List.getD, List.get?, List.dropLast, List.getLast, List.length, List.append_eq,
    List.cons_append, List.nil_append, Option.getD, Option.map,
    beq_self_eq_true, ne_eq, ite_true, ite_false, ite_self, and_self, and_true, true_and,
    eq_self_iff_true, Bool.false_eq_true, Bool.true_eq_false, Bool.not_true, Bool.not_false,
    Nat.reduceAdd, Nat.reduceSub, Nat.reduceMul, Nat.reduceDiv, Nat.reduceBEq,
    Nat.reduceEqDiff, Nat.reduceLeDiff, Nat.reduceLT, Nat.reduceGT, Nat.min_def,
    reduceCtorEq, decide_eq_true_eq, decide_not, not_true, not_false_iff, decide_True, decide_False,
    cond_true, cond_false, Option.isSome, Option.some.injEq, Prod.mk.injEq, mkCell]

theorem c5WX_skip (x0 y0 a : Val) (f : Val → Val → Val) (n d : Nat) :
    endUpdate (n + 1) (c5WX x0 y0 a f (d + 2)) = c5WX x0 y0 a f (d + 1) := by
  simp only [endUpdate_succ, endUpdateBody, c5WX, mkCell, gt_iff_lt, Nat.zero_lt_succ,
    ite_true, Nat.succ_sub_one, Nat.succ_ne_zero, ite_false, reduceCtorEq]

theorem c5_writeX (x0 y0 a : Val) (f : Val → Val → Val) (k : Nat)
    (hx : (x0 == a) = false) :
    readOrWriteObs 30 (c5S x0 y0 f (k + 1)) 1 (some a) =
      (c5WX x0 y0 a f (k + 1), .ok a) := by
  rw [c5_writeX_front x0 y0 a f k hx, show (29 : Nat) = 28 + 1 from rfl,
      show k + 2 = k + 2 from rfl]
  rw [c5WX_skip x0 y0 a f 28 k]
  simp only [peekValue, lookupCell, c5WX, mkCell, List.find?, Nat.reduceBEq, Option.map]

set_option maxHeartbeats 1000000 in
theorem c5_writeY_front (x0 y0 a b : Val) (f : Val → Val → Val) (k : Nat)
    (hy : (y0 == b) = false) :
    readOrWriteObs 30 (c5WX x0 y0 a f (k + 1)) 2 (some b) =
      (endUpdate 29 (c5W x0 y0 a b f (k + 2)),
       .ok (peekValue (endUpdate 29 (c5W x0 y0 a b f (k + 2))) 2)) := by
  simp only [c5WX, c5W, c5Body, hy, Nat.add_eq,   processUpdateQueue_zero, processUpdateQueue_succ,
    reevaluateComputedObs_zero, reevaluateComputedObs_succ, updateDependents_zero,
    updateDependents_succ, endUpdateBody, processUpdateQueueBody, reevaluateComputedObsBody,
    updateDependentsBody, readOrWriteObs, obsOf, obsFn, initState,
    breakDependencies, establishDependencies, tryReevaluateObsFn, updateComputedObs,
    runBody, recordDependency, peekValue, levelOf, lookupCell, updCell, bumpCount,
    bumpReported, startUpdate,
    enqueueUpdate, dequeueUpdate, heapPush, heapPop, siftUp, siftDown, insertSorted,
    defaultEq, evalCount, List.find?, List.map, List.foldl, List.filter, List.set,
    List.count, List.countP, List.countP.go,
    List.getD, List.get?, List.dropLast, List.getLast, List.length, List.append_eq,
    List.cons_append, List.nil_append, Option.getD, Option.map,
    beq_self_eq_true, ne_eq, ite_true, ite_false, ite_self, and_self, and_true, true_and,
    eq_self_iff_true, Bool.false_eq_true, Bool.true_eq_false, Bool.not_true, Bool.not_false,
    Nat.reduceAdd, Nat.reduceSub, Nat.reduceMul, Nat.reduceDiv, Nat.reduceBEq,
    Nat.reduceEqDiff, Nat.reduceLeDiff, Nat.reduceLT, Nat.reduceGT, Nat.min_def,
    reduceCtorEq, decide_eq_true_eq, decide_not, not_true, not_false_iff, decide_True, decide_False,
    cond_true, cond_false, Option.isSome, Option.some.injEq, Prod.mk.injEq, mkCell]

theorem c5W_skip (x0 y0 a b : Val) (f : Val → Val → Val) (n d : Nat) :
    endUpdate (n + 1) (c5W x0 y0 a b f (d + 2)) = c5W x0 y0 a b f (d + 1) := by
  simp only [endUpdate_succ, endUpdateBody, c5W, mkCell, gt_iff_lt, Nat.zero_lt_succ,
    ite_true, Nat.succ_sub_one, Nat.succ_ne_zero, ite_false, reduceCtorEq]

theorem c5_writeY (x0 y0 a b : Val) (f : Val → Val → Val) (k : Nat)
    (hy : (y0 == b) = false) :
    readOrWriteObs 30 (c5WX x0 y0 a f (k + 1)) 2 (some b) =
      (c5W x0 y0 a b f (k + 1), .ok b) := by
  rw [c5_writeY_front x0 y0 a b f k hy, show (29 : Nat) = 28 + 1 from rfl]
  rw [c5W_skip x0 y0 a b f 28 k]
  simp only [peekValue, lookupCell, c5W, mkCell, List.find?, Nat.reduceBEq, Option.map]

theorem c5_close_inner (x0 y0 a b : Val) (f : Val → Val → Val) (k : Nat) :
    endUpdates k (c5W x0 y0 a b f (k + 1)) = c5W x0 y0 a b f 1 := by
  induction k with
  | zero => simp [endUpdates]
  | succ m ih =>
    have hstep := c5W_skip x0 y0 a b f 29 m
    simp only [endUpdates, show (30 : Nat) = 29 + 1 from rfl, hstep, ih]

/-- Queue drained: U dequeued for re-evaluation. -/
def c5D (x0 y0 a b : Val) (f : Val → Val → Val) : ObsState :=
  { cells := [(1, mkCell a defaultEq none none (some [3]) 0 false),
              (2, mkCell b defaultEq none none (some [3]) 0 false),
              (3, mkCell (f x0 y0) defaultEq (some (c5Body f)) (some [1, 2]) none 1 false)],
    updateQ := [], updateDepth := 0, tracking := none, nextID := 4,
    evalLog := [3], reported := 0 }

/-- Final state: U re-evaluated exactly once from both new values. -/
def c5F (a b : Val) (f : Val → Val → Val) : ObsState :=
  { cells := [(1, mkCell a defaultEq none none (some [3]) 0 false),
              (2, mkCell b defaultEq none none (some [3]) 0 false),
              (3, mkCell (f a b) defaultEq (some (c5Body f)) (some [1, 2]) none 1 false)],
    updateQ := [], updateDepth := 0, tracking := none, nextID := 4,
    evalLog := [3, 3], reported := 0 }

set_option maxHeartbeats 1000000 in
theorem c5_flush_a (x0 y0 a b : Val) (f : Val → Val → Val) (n : Nat) :
    endUpdate (n + 1) (c5W x0 y0 a b f 1) = processUpdateQueue n (c5W x0 y0 a b f 0) := by
  simp only [c5W, c5Body, endUpdate_zero, endUpdate_succ,  
    reevaluateComputedObs_zero, reevaluateComputedObs_succ, updateDependents_zero,
    updateDependents_succ, endUpdateBody, processUpdateQueueBody, reevaluateComputedObsBody,
    updateDependentsBody, readOrWriteObs, obsOf, obsFn, initState,
    breakDependencies, establishDependencies, tryReevaluateObsFn, updateComputedObs,
    runBody, recordDependency, peekValue, levelOf, lookupCell, updCell, bumpCount,
    bumpReported, startUpdate,
    enqueueUpdate, dequeueUpdate, heapPush, heapPop, siftUp, siftDown, insertSorted,
    defaultEq, evalCount, List.find?, List.map, List.foldl, List.filter, List.set,
    List.count, List.countP, List.countP.go,
    List.getD, List.get?, List.dropLast, List.getLast, List.length, List.append_eq,
    List.cons_append, List.nil_append, Option.getD, Option.map,
    beq_self_eq_true, ne_eq, ite_true, ite_false, ite_self, and_self, and_true, true_and,
    eq_self_iff_true, Bool.false_eq_true, Bool.true_eq_false, Bool.not_true, Bool.not_false,
    Nat.reduceAdd, Nat.reduceSub, Nat.reduceMul, Nat.reduceDiv, Nat.reduceBEq,
    Nat.reduceEqDiff, Nat.reduceLeDiff, Nat.reduceLT, Nat.reduceGT, Nat.min_def,
    reduceCtorEq, decide_eq_true_eq, decide_not, not_true, not_false_iff, decide_True, decide_False,
    cond_true, cond_false, Option.isSome, Option.some.injEq, Prod.mk.injEq, mkCell]

set_option maxHeartbeats 1000000 in
theorem c5_flush_b (x0 y0 a b : Val) (f : Val → Val → Val) (n : Nat) :
    processUpdateQueue (n + 1) (c5W x0 y0 a b f 0) =
      processUpdateQueue n (reevaluateComputedObs n (c5D x0 y0 a b f) 3) := by
  simp only [c5W, c5D, c5Body, endUpdate_zero, endUpdate_succ, processUpdateQueue_zero, processUpdateQueue_succ,
      updateDependents_zero,
    updateDependents_succ, endUpdateBody, processUpdateQueueBody, reevaluateComputedObsBody,
    updateDependentsBody, readOrWriteObs, obsOf, obsFn, initState,
    breakDependencies, establishDependencies, tryReevaluateObsFn, updateComputedObs,
    runBody, recordDependency, peekValue, levelOf, lookupCell, updCell, bumpCount,
    bumpReported, startUpdate,
    enqueueUpdate, dequeueUpdate, heapPush, heapPop, siftUp, siftDown, insertSorted,
    defaultEq, evalCount, List.find?, List.map, List.foldl, List.filter, List.set,
    List.count, List.countP, List.countP.go,
    List.getD, List.get?, List.dropLast, List.getLast, List.length, List.append_eq,
    List.cons_append, List.nil_append, Option.getD, Option.map,
    beq_self_eq_true, ne_eq, ite_true, ite_false, ite_self, and_self, and_true, true_and,
    eq_self_iff_true, Bool.false_eq_true, Bool.true_eq_false, Bool.not_true, Bool.not_false,
    Nat.reduceAdd, Nat.reduceSub, Nat.reduceMul, Nat.reduceDiv, Nat.reduceBEq,
    Nat.reduceEqDiff, Nat.reduceLeDiff, Nat.reduceLT, Nat.reduceGT, Nat.min_def,
    reduceCtorEq, decide_eq_true_eq, decide_not, not_true, not_false_iff, decide_True, decide_False,
    cond_true, cond_false, Option.isSome, Option.some.injEq, Prod.mk.injEq, mkCell]

set_option maxHeartbeats 1000000 in
theorem c5_flush_c (x0 y0 a b : Val) (f : Val → Val → Val) (n : Nat) :
    reevaluateComputedObs (n + 2) (c5D x0 y0 a b f) 3 = c5F a b f := by
  simp only [c5D, c5F, c5Body, endUpdate_zero, endUpdate_succ, processUpdateQueue_zero, processUpdateQueue_succ,
    reevaluateComputedObs_zero, reevaluateComputedObs_succ, updateDependents_zero,
    updateDependents_succ, endUpdateBody, processUpdateQueueBody, reevaluateComputedObsBody,
    updateDependentsBody, readOrWriteObs, obsOf, obsFn, initState,
    breakDependencies, establishDependencies, tryReevaluateObsFn, updateComputedObs,
    runBody, recordDependency, peekValue, levelOf, lookupCell, updCell, bumpCount,
    bumpReported, startUpdate,
    enqueueUpdate, dequeueUpdate, heapPush, heapPop, siftUp, siftDown, insertSorted,
    defaultEq, evalCount, List.find?, List.map, List.foldl, List.filter, List.set,
    List.count, List.countP, List.countP.go,
    List.getD, List.get?, List.dropLast, List.getLast, List.length, List.append_eq,
    List.cons_append, List.nil_append, Option.getD, Option.map,
    beq_self_eq_true, ne_eq, ite_true, ite_false, ite_self, and_self, and_true, true_and,
    eq_self_iff_true, Bool.false_eq_true, Bool.true_eq_false, Bool.not_true, Bool.not_false,
    Nat.reduceAdd, Nat.reduceSub, Nat.reduceMul, Nat.reduceDiv, Nat.reduceBEq,
    Nat.reduceEqDiff, Nat.reduceLeDiff, Nat.reduceLT, Nat.reduceGT, Nat.min_def,
    reduceCtorEq, decide_eq_true_eq, decide_not, not_true, not_false_iff, decide_True, decide_False,
    cond_true, cond_false, Option.isSome, Option.some.injEq, Prod.mk.injEq, mkCell]

/-- C5: with X, Y mutable and computed U = f(X, Y), the writes X := a,
Y := b (both unequal to the old values) inside one batch region nested
`k` extra levels deep run U's body no further time while any region is
open — including while the `k` inner regions close — and exactly once
when the outermost region closes, computing U from both new values. -/
theorem C5_batch_coalesces (x0 y0 a b : Val) (f : Val → Val → Val) (k : Nat)
    (hx : x0 ≠ a) (hy : y0 ≠ b) :
    evalCount (readOrWriteObs 30 (readOrWriteObs 30
        (startUpdates (k + 1) (c5Setup x0 y0 f)) 1 (some a)).1 2 (some b)).1 3 =
      evalCount (c5Setup x0 y0 f) 3 ∧
    evalCount (endUpdates k (readOrWriteObs 30 (readOrWriteObs 30
        (startUpdates (k + 1) (c5Setup x0 y0 f)) 1 (some a)).1 2 (some b)).1) 3 =
      evalCount (c5Setup x0 y0 f) 3 ∧
    evalCount (endUpdate 30 (endUpdates k (readOrWriteObs 30 (readOrWriteObs 30
        (startUpdates (k + 1) (c5Setup x0 y0 f)) 1 (some a)).1 2 (some b)).1)) 3 =
      evalCount (c5Setup x0 y0 f) 3 + 1 ∧
    peekValue (endUpdate 30 (endUpdates k (readOrWriteObs 30 (readOrWriteObs 30
        (startUpdates (k + 1) (c5Setup x0 y0 f)) 1 (some a)).1 2 (some b)).1)) 3 = f a b := by
  have hxb : (x0 == a) = false := beq_eq_false_iff_ne.mpr hx
  have hyb : (y0 == b) = false := beq_eq_false_iff_ne.mpr hy
  have h5 : endUpdate 30 (c5W x0 y0 a b f 1) = c5F a b f := by
    rw [show (30 : Nat) = 29 + 1 from rfl, c5_flush_a,
        show (29 : Nat) = 28 + 1 from rfl, c5_flush_b,
        show (28 : Nat) = 26 + 2 from rfl, c5_flush_c,
        processUpdateQueue_empty 27 _ (by rfl)]
  simp only [c5Setup_eq, startUpdates_open, c5_writeX x0 y0 a f k hxb,
    c5_writeY x0 y0 a b f k hyb, c5_close_inner, h5]
  simp only [c5S, c5W, c5F, mkCell, evalCount, peekValue, lookupCell, List.find?,
    Nat.reduceBEq, Option.map, List.count, List.countP, List.countP.go, cond_true, cond_false,
    beq_self_eq_true, Nat.reduceAdd, and_self, and_true, true_and, eq_self_iff_true]

/-- Witness for C5 at a concrete input (one extra nesting level). -/
theorem C5_batch_coalesces_witness :
    evalCount (readOrWriteObs 30 (readOrWriteObs 30
        (startUpdates 2 (c5Setup (some 0) (some 0) (fun a _ => a))) 1 (some (some 1))).1 2
        (some (some 2))).1 3 =
      evalCount (c5Setup (some 0) (some 0) (fun a _ => a)) 3 ∧
    evalCount (endUpdates 1 (readOrWriteObs 30 (readOrWriteObs 30
        (startUpdates 2 (c5Setup (some 0) (some 0) (fun a _ => a))) 1 (some (some 1))).1 2
        (some (some 2))).1) 3 =
      evalCount (c5Setup (some 0) (some 0) (fun a _ => a)) 3 ∧
    evalCount (endUpdate 30 (endUpdates 1 (readOrWriteObs 30 (readOrWriteObs 30
        (startUpdates 2 (c5Setup (some 0) (some 0) (fun a _ => a))) 1 (some (some 1))).1 2
        (some (some 2))).1)) 3 =
      evalCount (c5Setup (some 0) (some 0) (fun a _ => a)) 3 + 1 ∧
    peekValue (endUpdate 30 (endUpdates 1 (readOrWriteObs 30 (readOrWriteObs 30
        (startUpdates 2 (c5Setup (some 0) (some 0) (fun a _ => a))) 1 (some (some 1))).1 2
        (some (some 2))).1)) 3 = some 1 :=
  C5_batch_coalesces (some 0) (some 0) (some 1) (some 2) (fun a _ => a) 1
    (by decide) (by decide)

/-!
Scenario for claim C6 (error isolation): X (id 1) mutable; U (id 2)
computed with a body that reads X and throws whenever the predicate `p`
holds of the value read (otherwise returns `f` of it); V = g(U) (id 3);
W = h(X) (id 4).  The initial value satisfies `p x0 = false`, the
written value satisfies `p w = true`, so U's body throws during the
flush triggered by the write.
-/

def c6BodyU (p : Val → Bool) (f : Val → Val) : Body :=
  .readThen 1 fun xv => if p xv then .fail else .ret (f xv)

def c6BodyW (h : Val → Val) : Body := .readThen 1 fun xv => .ret (h xv)

def c6S2 (x0 : Val) (p : Val → Bool) (f : Val → Val) : ObsState :=
  { cells := [(1, mkCell x0 defaultEq none none (some [2]) 0 false),
              (2, mkCell (f x0) defaultEq (some (c6BodyU p f)) (some [1]) none 1 false)],
    updateQ := [], updateDepth := 0, tracking := none, nextID := 3,
    evalLog := [2], reported := 0 }

set_option maxHeartbeats 1000000 in
theorem c6s2_eq (x0 : Val) (p : Val → Bool) (f : Val → Val) (hpx : p x0 = false) :
    obsFn 30 (dmS1 x0) (.readThen 1 fun xv => if p xv then .fail else .ret (f xv))
        defaultEq = (c6S2 x0 p f, 2) := by
  simp only [dmS1, c6S2, c6BodyU, hpx, endUpdate_zero, endUpdate_succ, processUpdateQueue_zero, processUpdateQueue_succ,
    reevaluateComputedObs_zero, reevaluateComputedObs_succ, updateDependents_zero,
    updateDependents_succ, endUpdateBody, processUpdateQueueBody, reevaluateComputedObsBody,
    updateDependentsBody, readOrWriteObs, obsOf, obsFn, initState,
    breakDependencies, establishDependencies, tryReevaluateObsFn, updateComputedObs,
    runBody, recordDependency, peekValue, levelOf, lookupCell, updCell, bumpCount,
    bumpReported, startUpdate,
    enqueueUpdate, dequeueUpdate, heapPush, heapPop, siftUp, siftDown, insertSorted,
    defaultEq, evalCount, List.find?, List.map, List.foldl, List.filter, List.set,
    List.count, List.countP, List.countP.go,
    List.getD, List.get?, List.dropLast, List.getLast, List.length, List.append_eq,
    List.cons_append, List.nil_append, Option.getD, Option.map,
    beq_self_eq_true, ne_eq, ite_true, ite_false, ite_self, and_self, and_true, true_and,
    eq_self_iff_true, Bool.false_eq_true, Bool.true_eq_false, Bool.not_true, Bool.not_false,
    Nat.reduceAdd, Nat.reduceSub, Nat.reduceMul, Nat.reduceDiv, Nat.reduceBEq,
    Nat.reduceEqDiff, Nat.reduceLeDiff, Nat.reduceLT, Nat.reduceGT, Nat.min_def,
    reduceCtorEq, decide_eq_true_eq, decide_not, not_true, not_false_iff, decide_True, decide_False,
    cond_true, cond_false, Option.isSome, Option.some.injEq, Prod.mk.injEq, mkCell]

def c6S3 (x0 : Val) (p : Val → Bool) (f g : Val → Val) : ObsState :=
  { cells := [(1, mkCell x0 defaultEq none none (some [2]) 0 false),
              (2, mkCell (f x0) defaultEq (some (c6BodyU p f)) (some [1]) (some [3]) 1 false),
              (3, mkCell (g (f x0)) defaultEq (some (c7BodyV g)) (some [2]) none 2 false)],
    updateQ := [], updateDepth := 0, tracking := none, nextID := 4,
    evalLog := [2, 3], reported := 0 }

set_option maxHeartbeats 1000000 in
theorem c6s3_eq (x0 : Val) (p : Val → Bool) (f g : Val → Val) :
    obsFn 30 (c6S2 x0 p f) (.readThen 2 fun uv => .ret (g uv)) defaultEq =
      (c6S3 x0 p f g, 3) := by
  simp only [c6S2, c6S3, c6BodyU, c7BodyV, endUpdate_zero, endUpdate_succ, processUpdateQueue_zero, processUpdateQueue_succ,
    reevaluateComputedObs_zero, reevaluateComputedObs_succ, updateDependents_zero,
    updateDependents_succ, endUpdateBody, processUpdateQueueBody, reevaluateComputedObsBody,
    updateDependentsBody, readOrWriteObs, obsOf, obsFn, initState,
    breakDependencies, establishDependencies, tryReevaluateObsFn, updateComputedObs,
    runBody, recordDependency, peekValue, levelOf, lookupCell, updCell, bumpCount,
    bumpReported, startUpdate,
    enqueueUpdate, dequeueUpdate, heapPush, heapPop, siftUp, siftDown, insertSorted,
    defaultEq, evalCount, List.find?, List.map, List.foldl, List.filter, List.set,
    List.count, List.countP, List.countP.go,
    List.getD, List.get?, List.dropLast, List.getLast, List.length, List.append_eq,
    List.cons_append, List.nil_append, Option.getD, Option.map,
    beq_self_eq_true, ne_eq, ite_true, ite_false, ite_self, and_self, and_true, true_and,
    eq_self_iff_true, Bool.false_eq_true, Bool.true_eq_false, Bool.not_true, Bool.not_false,
    Nat.reduceAdd, Nat.reduceSub, Nat.reduceMul, Nat.reduceDiv, Nat.reduceBEq,
    Nat.reduceEqDiff, Nat.reduceLeDiff, Nat.reduceLT, Nat.reduceGT, Nat.min_def,
    reduceCtorEq, decide_eq_true_eq, decide_not, not_true, not_false_iff, decide_True, decide_False,
    cond_true, cond_false, Option.isSome, Option.some.injEq, Prod.mk.injEq, mkCell]

def c6S4 (x0 : Val) (p : Val → Bool) (f g h : Val → Val) : ObsState :=
  { cells := [(1, mkCell x0 defaultEq none none (some [2, 4]) 0 false),
              (2, mkCell (f x0) defaultEq (some (c6BodyU p f)) (some [1]) (some [3]) 1 false),
              (3, mkCell (g (f x0)) defaultEq (some (c7BodyV g)) (some [2]) none 2 false),
              (4, mkCell (h x0) defaultEq (some (c6BodyW h)) (some [1]) none 1 false)],
    updateQ := [], updateDepth := 0, tracking := none, nextID := 5,
    evalLog := [2, 3, 4], reported := 0 }

set_option maxHeartbeats 1000000 in
theorem c6s4_eq (x0 : Val) (p : Val → Bool) (f g h : Val → Val) :
    obsFn 30 (c6S3 x0 p f g) (.readThen 1 fun xv => .ret (h xv)) defaultEq =
      (c6S4 x0 p f g h, 4) := by
  simp only [c6S3, c6S4, c6BodyU, c7BodyV, c6BodyW, endUpdate_zero, endUpdate_succ, processUpdateQueue_zero, processUpdateQueue_succ,
    reevaluateComputedObs_zero, reevaluateComputedObs_succ, updateDependents_zero,
    updateDependents_succ, endUpdateBody, processUpdateQueueBody, reevaluateComputedObsBody,
    updateDependentsBody, readOrWriteObs, obsOf, obsFn, initState,
    breakDependencies, establishDependencies, tryReevaluateObsFn, updateComputedObs,
    runBody, recordDependency, peekValue, levelOf, lookupCell, updCell, bumpCount,
    bumpReported, startUpdate,
    enqueueUpdate, dequeueUpdate, heapPush, heapPop, siftUp, siftDown, insertSorted,
    defaultEq, evalCount, List.find?, List.map, List.foldl, List.filter, List.set,
    List.count, List.countP, List.countP.go,
    List.getD, List.get?, List.dropLast, List.getLast, List.length, List.append_eq,
    List.cons_append, List.nil_append, Option.getD, Option.map,
    beq_self_eq_true, ne_eq, ite_true, ite_false, ite_self, and_self, and_true, true_and,
    eq_self_iff_true, Bool.false_eq_true, Bool.true_eq_false, Bool.not_true, Bool.not_false,
    Nat.reduceAdd, Nat.reduceSub, Nat.reduceMul, Nat.reduceDiv, Nat.reduceBEq,
    Nat.reduceEqDiff, Nat.reduceLeDiff, Nat.reduceLT, Nat.reduceGT, Nat.min_def,
    reduceCtorEq, decide_eq_true_eq, decide_not, not_true, not_false_iff, decide_True, decide_False,
    cond_true, cond_false, Option.isSome, Option.some.injEq, Prod.mk.injEq, mkCell]

/-- Setup for C6 via the public constructors. -/
def c6Setup (x0 : Val) (p : Val → Bool) (f g h : Val → Val) : ObsState :=
  let (s1, x) := obsOf initState x0 defaultEq
  let (s2, u) := obsFn 30 s1 (.readThen x fun xv => if p xv then .fail else .ret (f xv))
    defaultEq
  let (s3, _) := obsFn 30 s2 (.readThen u fun uv => .ret (g uv)) defaultEq
  (obsFn 30 s3 (.readThen x fun xv => .ret (h xv)) defaultEq).1

theorem c6Setup_eq (x0 : Val) (p : Val → Bool) (f g h : Val → Val) (hpx : p x0 = false) :
    c6Setup x0 p f g h = c6S4 x0 p f g h := by
  simp only [c6Setup, dm1, c6s2_eq x0 p f hpx, c6s3_eq, c6s4_eq]

def c6T1 (x0 w : Val) (p : Val → Bool) (f g h : Val → Val) : ObsState :=
  { cells := [(1, mkCell w defaultEq none none (some [2, 4]) 0 false),
              (2, mkCell (f x0) defaultEq (some (c6BodyU p f)) (some [1]) (some [3]) 1 false),
              (3, mkCell (g (f x0)) defaultEq (some (c7BodyV g)) (some [2]) none 2 false),
              (4, mkCell (h x0) defaultEq (some (c6BodyW h)) (some [1]) none 1 false)],
    updateQ := [], updateDepth := 0, tracking := none, nextID := 5,
    evalLog := [2, 3, 4], reported := 0 }

set_option maxHeartbeats 1000000 in
theorem c6_write_front (x0 w : Val) (p : Val → Bool) (f g h : Val → Val)
    (hx : (x0 == w) = false) :
    readOrWriteObs 30 (c6S4 x0 p f g h) 1 (some w) =
      (updateDependents 30 (c6T1 x0 w p f g h) 1,
       .ok (peekValue (updateDependents 30 (c6T1 x0 w p f g h) 1) 1)) := by
  simp only [c6S4, c6T1, c6BodyU, c7BodyV, c6BodyW, hx, endUpdate_zero, endUpdate_succ, processUpdateQueue_zero, processUpdateQueue_succ,
    reevaluateComputedObs_zero, reevaluateComputedObs_succ, 
     endUpdateBody, processUpdateQueueBody, reevaluateComputedObsBody,
    updateDependentsBody, readOrWriteObs, obsOf, obsFn, initState,
    breakDependencies, establishDependencies, tryReevaluateObsFn, updateComputedObs,
    runBody, recordDependency,  levelOf, lookupCell, updCell, bumpCount,
    bumpReported, startUpdate,
    enqueueUpdate, dequeueUpdate, heapPush, heapPop, siftUp, siftDown, insertSorted,
    defaultEq, evalCount, List.find?, List.map, List.foldl, List.filter, List.set,
    List.count, List.countP, List.countP.go,
    List.getD, List.get?, List.dropLast, List.getLast, List.length, List.append_eq,
    List.cons_append, List.nil_append, Option.getD, Option.map,
    beq_self_eq_true, ne_eq, ite_true, ite_false, ite_self, and_self, and_true, true_and,
    eq_self_iff_true, Bool.false_eq_true, Bool.true_eq_false, Bool.not_true, Bool.not_false,
    Nat.reduceAdd, Nat.reduceSub, Nat.reduceMul, Nat.reduceDiv, Nat.reduceBEq,
    Nat.reduceEqDiff, Nat.reduceLeDiff, Nat.reduceLT, Nat.reduceGT, Nat.min_def,
    reduceCtorEq, decide_eq_true_eq, decide_not, not_true, not_false_iff, decide_True, decide_False,
    cond_true, cond_false, Option.isSome, Option.some.injEq, Prod.mk.injEq, mkCell]

def c6T2 (x0 w : Val) (p : Val → Bool) (f g h : Val → Val) (d : Nat) : ObsState :=
  { cells := [(1, mkCell w defaultEq none none (some [2, 4]) 0 false),
              (2, mkCell (f x0) defaultEq (some (c6BodyU p f)) (some [1]) (some [3]) 1 true),
              (3, mkCell (g (f x0)) defaultEq (some (c7BodyV g)) (some [2]) none 2 false),
              (4, mkCell (h x0) defaultEq (some (c6BodyW h)) (some [1]) none 1 true)],
    updateQ := [2, 4], updateDepth := d, tracking := none, nextID := 5,
    evalLog := [2, 3, 4], reported := 0 }

set_option maxHeartbeats 1000000 in
theorem c6_updDeps (x0 w : Val) (p : Val → Bool) (f g h : Val → Val) (n : Nat) :
    updateDependents (n + 1) (c6T1 x0 w p f g h) 1 = endUpdate n (c6T2 x0 w p f g h 1) := by
  simp only [c6T1, c6T2, c6BodyU, c7BodyV, c6BodyW,   processUpdateQueue_zero, processUpdateQueue_succ,
    reevaluateComputedObs_zero, reevaluateComputedObs_succ, updateDependents_zero,
    updateDependents_succ, endUpdateBody, processUpdateQueueBody, reevaluateComputedObsBody,
    updateDependentsBody, readOrWriteObs, obsOf, obsFn, initState,
    breakDependencies, establishDependencies, tryReevaluateObsFn, updateComputedObs,
    runBody, recordDependency, peekValue, levelOf, lookupCell, updCell, bumpCount,
    bumpReported, startUpdate,
    enqueueUpdate, dequeueUpdate, heapPush, heapPop, siftUp, siftDown, insertSorted,
    defaultEq, evalCount, List.find?, List.map, List.foldl, List.filter, List.set,
    List.count, List.countP, List.countP.go,
    List.getD, List.get?, List.dropLast, List.getLast, List.length, List.append_eq,
    List.cons_append, List.nil_append, Option.getD, Option.map,
    beq_self_eq_true, ne_eq, ite_true, ite_false, ite_self, and_self, and_true, true_and,
    eq_self_iff_true, Bool.false_eq_true, Bool.true_eq_false, Bool.not_true, Bool.not_false,
    Nat.reduceAdd, Nat.reduceSub, Nat.reduceMul, Nat.reduceDiv, Nat.reduceBEq,
    Nat.reduceEqDiff, Nat.reduceLeDiff, Nat.reduceLT, Nat.reduceGT, Nat.min_def,
    reduceCtorEq, decide_eq_true_eq, decide_not, not_true, not_false_iff, decide_True, decide_False,
    cond_true, cond_false, Option.isSome, Option.some.injEq, Prod.mk.injEq, mkCell]

set_option maxHeartbeats 1000000 in
theorem c6_endUpd (x0 w : Val) (p : Val → Bool) (f g h : Val → Val) (n : Nat) :
    endUpdate (n + 1) (c6T2 x0 w p f g h 1) = processUpdateQueue n (c6T2 x0 w p f g h 0) := by
  simp only [c6T2, c6BodyU, c7BodyV, c6BodyW, endUpdate_zero, endUpdate_succ,  
    reevaluateComputedObs_zero, reevaluateComputedObs_succ, updateDependents_zero,
    updateDependents_succ, endUpdateBody, processUpdateQueueBody, reevaluateComputedObsBody,
    updateDependentsBody, readOrWriteObs, obsOf, obsFn, initState,
    breakDependencies, establishDependencies, tryReevaluateObsFn, updateComputedObs,
    runBody, recordDependency, peekValue, levelOf, lookupCell, updCell, bumpCount,
    bumpReported, startUpdate,
    enqueueUpdate, dequeueUpdate, heapPush, heapPop, siftUp, siftDown, insertSorted,
    defaultEq, evalCount, List.find?, List.map, List.foldl, List.filter, List.set,
    List.count, List.countP, List.countP.go,
    List.getD, List.get?, List.dropLast, List.getLast, List.length, List.append_eq,
    List.cons_append, List.nil_append, Option.getD, Option.map,
    beq_self_eq_true, ne_eq, ite_true, ite_false, ite_self, and_self, and_true, true_and,
    eq_self_iff_true, Bool.false_eq_true, Bool.true_eq_false, Bool.not_true, Bool.not_false,
    Nat.reduceAdd, Nat.reduceSub, Nat.reduceMul, Nat.reduceDiv, Nat.reduceBEq,
    Nat.reduceEqDiff, Nat.reduceLeDiff, Nat.reduceLT, Nat.reduceGT, Nat.min_def,
    reduceCtorEq, decide_eq_true_eq, decide_not, not_true, not_false_iff, decide_True, decide_False,
    cond_true, cond_false, Option.isSome, Option.some.injEq, Prod.mk.injEq, mkCell]

def c6T3 (x0 w : Val) (p : Val → Bool) (f g h : Val → Val) : ObsState :=
  { cells := [(1, mkCell w defaultEq none none (some [2, 4]) 0 false),
              (2, mkCell (f x0) defaultEq (some (c6BodyU p f)) (some [1]) (some [3]) 1 false),
              (3, mkCell (g (f x0)) defaultEq (some (c7BodyV g)) (some [2]) none 2 false),
              (4, mkCell (h x0) defaultEq (some (c6BodyW h)) (some [1]) none 1 true)],
    updateQ := [4], updateDepth := 0, tracking := none, nextID := 5,
    evalLog := [2, 3, 4], reported := 0 }

set_option maxHeartbeats 1000000 in
theorem c6_deq2 (x0 w : Val) (p : Val → Bool) (f g h : Val → Val) (n : Nat) :
    processUpdateQueue (n + 1) (c6T2 x0 w p f g h 0) =
      processUpdateQueue n (reevaluateComputedObs n (c6T3 x0 w p f g h) 2) := by
  simp only [c6T2, c6T3, c6BodyU, c7BodyV, c6BodyW, endUpdate_zero, endUpdate_succ, processUpdateQueue_zero, processUpdateQueue_succ,
      updateDependents_zero,
    updateDependents_succ, endUpdateBody, processUpdateQueueBody, reevaluateComputedObsBody,
    updateDependentsBody, readOrWriteObs, obsOf, obsFn, initState,
    breakDependencies, establishDependencies, tryReevaluateObsFn, updateComputedObs,
    runBody, recordDependency, peekValue, levelOf, lookupCell, updCell, bumpCount,
    bumpReported, startUpdate,
    enqueueUpdate, dequeueUpdate, heapPush, heapPop, siftUp, siftDown, insertSorted,
    defaultEq, evalCount, List.find?, List.map, List.foldl, List.filter, List.set,
    List.count, List.countP, List.countP.go,
    List.getD, List.get?, List.dropLast, List.getLast, List.length, List.append_eq,
    List.cons_append, List.nil_append, Option.getD, Option.map,
    beq_self_eq_true, ne_eq, ite_true, ite_false, ite_self, and_self, and_true, true_and,
    eq_self_iff_true, Bool.false_eq_true, Bool.true_eq_false, Bool.not_true, Bool.not_false,
    Nat.reduceAdd, Nat.reduceSub, Nat.reduceMul, Nat.reduceDiv, Nat.reduceBEq,
    Nat.reduceEqDiff, Nat.reduceLeDiff, Nat.reduceLT, Nat.reduceGT, Nat.min_def,
    reduceCtorEq, decide_eq_true_eq, decide_not, not_true, not_false_iff, decide_True, decide_False,
    cond_true, cond_false, Option.isSome, Option.some.injEq, Prod.mk.injEq, mkCell]

def c6T4 (x0 w : Val) (p : Val → Bool) (f g h : Val → Val) : ObsState :=
  { cells := [(1, mkCell w defaultEq none none (some [2, 4]) 0 false),
              (2, mkCell (f x0) defaultEq (some (c6BodyU p f)) (some [1]) (some [3]) 1 false),
              (3, mkCell (g (f x0)) defaultEq (some (c7BodyV g)) (some [2]) none 2 false),
              (4, mkCell (h x0) defaultEq (some (c6BodyW h)) (some [1]) none 1 true)],
    updateQ := [4], updateDepth := 0, tracking := none, nextID := 5,
    evalLog := [2, 3, 4, 2], reported := 1 }

set_option maxHeartbeats 1000000 in
theorem c6_reevalU (x0 w : Val) (p : Val → Bool) (f g h : Val → Val) (n : Nat)
    (hpw : p w = true) :
    reevaluateComputedObs (n + 1) (c6T3 x0 w p f g h) 2 = c6T4 x0 w p f g h := by
  simp only [c6T3, c6T4, c6BodyU, c7BodyV, c6BodyW, hpw, endUpdate_zero, endUpdate_succ, processUpdateQueue_zero, processUpdateQueue_succ,
    reevaluateComputedObs_zero, reevaluateComputedObs_succ, updateDependents_zero,
    updateDependents_succ, endUpdateBody, processUpdateQueueBody, reevaluateComputedObsBody,
    updateDependentsBody, readOrWriteObs, obsOf, obsFn, initState,
    breakDependencies, establishDependencies, tryReevaluateObsFn, updateComputedObs,
    runBody, recordDependency, peekValue, levelOf, lookupCell, updCell, bumpCount,
    bumpReported, startUpdate,
    enqueueUpdate, dequeueUpdate, heapPush, heapPop, siftUp, siftDown, insertSorted,
    defaultEq, evalCount, List.find?, List.map, List.foldl, List.filter, List.set,
    List.count, List.countP, List.countP.go,
    List.getD, List.get?, List.dropLast, List.getLast, List.length, List.append_eq,
    List.cons_append, List.nil_append, Option.getD, Option.map,
    beq_self_eq_true, ne_eq, ite_true, ite_false, ite_self, and_self, and_true, true_and,
    eq_self_iff_true, Bool.false_eq_true, Bool.true_eq_false, Bool.not_true, Bool.not_false,
    Nat.reduceAdd, Nat.reduceSub, Nat.reduceMul, Nat.reduceDiv, Nat.reduceBEq,
    Nat.reduceEqDiff, Nat.reduceLeDiff, Nat.reduceLT, Nat.reduceGT, Nat.min_def,
    reduceCtorEq, decide_eq_true_eq, decide_not, not_true, not_false_iff, decide_True, decide_False,
    cond_true, cond_false, Option.isSome, Option.some.injEq, Prod.mk.injEq, mkCell]

def c6T5 (x0 w : Val) (p : Val → Bool) (f g h : Val → Val) : ObsState :=
  { cells := [(1, mkCell w defaultEq none none (some [2, 4]) 0 false),
              (2, mkCell (f x0) defaultEq (some (c6BodyU p f)) (some [1]) (some [3]) 1 false),
              (3, mkCell (g (f x0)) defaultEq (some (c7BodyV g)) (some [2]) none 2 false),
              (4, mkCell (h x0) defaultEq (some (c6BodyW h)) (some [1]) none 1 false)],
    updateQ := [], updateDepth := 0, tracking := none, nextID := 5,
    evalLog := [2, 3, 4, 2], reported := 1 }

set_option maxHeartbeats 1000000 in
theorem c6_deq4 (x0 w : Val) (p : Val → Bool) (f g h : Val → Val) (n : Nat) :
    processUpdateQueue (n + 1) (c6T4 x0 w p f g h) =
      processUpdateQueue n (reevaluateComputedObs n (c6T5 x0 w p f g h) 4) := by
  simp only [c6T4, c6T5, c6BodyU, c7BodyV, c6BodyW, endUpdate_zero, endUpdate_succ, processUpdateQueue_zero, processUpdateQueue_succ,
      updateDependents_zero,
    updateDependents_succ, endUpdateBody, processUpdateQueueBody, reevaluateComputedObsBody,
    updateDependentsBody, readOrWriteObs, obsOf, obsFn, initState,
    breakDependencies, establishDependencies, tryReevaluateObsFn, updateComputedObs,
    runBody, recordDependency, peekValue, levelOf, lookupCell, updCell, bumpCount,
    bumpReported, startUpdate,
    enqueueUpdate, dequeueUpdate, heapPush, heapPop, siftUp, siftDown, insertSorted,
    defaultEq, evalCount, List.find?, List.map, List.foldl, List.filter, List.set,
    List.count, List.countP, List.countP.go,
    List.getD, List.get?, List.dropLast, List.getLast, List.length, List.append_eq,
    List.cons_append, List.nil_append, Option.getD, Option.map,
    beq_self_eq_true, ne_eq, ite_true, ite_false, ite_self, and_self, and_true, true_and,
    eq_self_iff_true, Bool.false_eq_true, Bool.true_eq_false, Bool.not_true, Bool.not_false,
    Nat.reduceAdd, Nat.reduceSub, Nat.reduceMul, Nat.reduceDiv, Nat.reduceBEq,
    Nat.reduceEqDiff, Nat.reduceLeDiff, Nat.reduceLT, Nat.reduceGT, Nat.min_def,
    reduceCtorEq, decide_eq_true_eq, decide_not, not_true, not_false_iff, decide_True, decide_False,
    cond_true, cond_false, Option.isSome, Option.some.injEq, Prod.mk.injEq, mkCell]

def c6F (x0 w : Val) (p : Val → Bool) (f g h : Val → Val) : ObsState :=
  { cells := [(1, mkCell w defaultEq none none (some [2, 4]) 0 false),
              (2, mkCell (f x0) defaultEq (some (c6BodyU p f)) (some [1]) (some [3]) 1 false),
              (3, mkCell (g (f x0)) defaultEq (some (c7BodyV g)) (some [2]) none 2 false),
              (4, mkCell (h w) defaultEq (some (c6BodyW h)) (some [1]) none 1 false)],
    updateQ := [], updateDepth := 0, tracking := none, nextID := 5,
    evalLog := [2, 3, 4, 2, 4], reported := 1 }

set_option maxHeartbeats 1000000 in
theorem c6_reevalW (x0 w : Val) (p : Val → Bool) (f g h : Val → Val) (n : Nat) :
    reevaluateComputedObs (n + 2) (c6T5 x0 w p f g h) 4 = c6F x0 w p f g h := by
  simp only [c6T5, c6F, c6BodyU, c7BodyV, c6BodyW, endUpdate_zero, endUpdate_succ, processUpdateQueue_zero, processUpdateQueue_succ,
    reevaluateComputedObs_zero, reevaluateComputedObs_succ, updateDependents_zero,
    updateDependents_succ, endUpdateBody, processUpdateQueueBody, reevaluateComputedObsBody,
    updateDependentsBody, readOrWriteObs, obsOf, obsFn, initState,
    breakDependencies, establishDependencies, tryReevaluateObsFn, updateComputedObs,
    runBody, recordDependency, peekValue, levelOf, lookupCell, updCell, bumpCount,
    bumpReported, startUpdate,
    enqueueUpdate, dequeueUpdate, heapPush, heapPop, siftUp, siftDown, insertSorted,
    defaultEq, evalCount, List.find?, List.map, List.foldl, List.filter, List.set,
    List.count, List.countP, List.countP.go,
    List.getD, List.get?, List.dropLast, List.getLast, List.length, List.append_eq,
    List.cons_append, List.nil_append, Option.getD, Option.map,
    beq_self_eq_true, ne_eq, ite_true, ite_false, ite_self, and_self, and_true, true_and,
    eq_self_iff_true, Bool.false_eq_true, Bool.true_eq_false, Bool.not_true, Bool.not_false,
    Nat.reduceAdd, Nat.reduceSub, Nat.reduceMul, Nat.reduceDiv, Nat.reduceBEq,
    Nat.reduceEqDiff, Nat.reduceLeDiff, Nat.reduceLT, Nat.reduceGT, Nat.min_def,
    reduceCtorEq, decide_eq_true_eq, decide_not, not_true, not_false_iff, decide_True, decide_False,
    cond_true, cond_false, Option.isSome, Option.some.injEq, Prod.mk.injEq, mkCell]

/-- C6: when a computed cell's body throws during the re-evaluation
triggered by a write, the exception is caught and counted by the error
hook instead of reaching the writer (the write returns normally); the
cell keeps its last good value; its dependent V is not re-evaluated;
and the flush still re-evaluates the other queued cell W. -/
theorem C6_error_isolation (x0 w : Val) (p : Val → Bool) (f g h : Val → Val)
    (hpx : p x0 = false) (hpw : p w = true) (hne : x0 ≠ w) :
    (readOrWriteObs 30 (c6Setup x0 p f g h) 1 (some w)).2 = .ok w ∧
    (readOrWriteObs 30 (c6Setup x0 p f g h) 1 (some w)).1.reported =
      (c6Setup x0 p f g h).reported + 1 ∧
    peekValue (readOrWriteObs 30 (c6Setup x0 p f g h) 1 (some w)).1 2 = f x0 ∧
    evalCount (readOrWriteObs 30 (c6Setup x0 p f g h) 1 (some w)).1 2 =
      evalCount (c6Setup x0 p f g h) 2 + 1 ∧
    evalCount (readOrWriteObs 30 (c6Setup x0 p f g h) 1 (some w)).1 3 =
      evalCount (c6Setup x0 p f g h) 3 ∧
    peekValue (readOrWriteObs 30 (c6Setup x0 p f g h) 1 (some w)).1 3 = g (f x0) ∧
    evalCount (readOrWriteObs 30 (c6Setup x0 p f g h) 1 (some w)).1 4 =
      evalCount (c6Setup x0 p f g h) 4 + 1 ∧
    peekValue (readOrWriteObs 30 (c6Setup x0 p f g h) 1 (some w)).1 4 = h w := by
  have hx : (x0 == w) = false := beq_eq_false_iff_ne.mpr hne
  have hrun : readOrWriteObs 30 (c6Setup x0 p f g h) 1 (some w) =
      (c6F x0 w p f g h, .ok w) := by
    have hU : ∀ n, reevaluateComputedObs (n + 1) (c6T3 x0 w p f g h) 2 =
        c6T4 x0 w p f g h := fun n => c6_reevalU x0 w p f g h n hpw
    have hpe : ∀ n, processUpdateQueue (n + 1) (c6F x0 w p f g h) = c6F x0 w p f g h :=
      fun n => processUpdateQueue_empty n _ rfl
    simp only [c6Setup_eq x0 p f g h hpx, c6_write_front x0 w p f g h hx, c6_updDeps,
      c6_endUpd, c6_deq2, hU, c6_deq4, c6_reevalW, hpe]
    simp only [c6F, mkCell, peekValue, lookupCell, List.find?, Nat.reduceBEq, Option.map]
  rw [c6Setup_eq x0 p f g h hpx] at hrun ⊢
  simp only [hrun]
  simp only [c6F, c6S4, mkCell, evalCount, peekValue, lookupCell, List.find?,
    Nat.reduceBEq, Option.map, List.count, List.countP, List.countP.go, cond_true, cond_false,
    beq_self_eq_true, Nat.reduceAdd, and_self, and_true, true_and, eq_self_iff_true]

/-- Witness for C6 at a concrete input. -/
theorem C6_error_isolation_witness :
    (readOrWriteObs 30 (c6Setup (some 0) (fun v => v == some 1) (fun v => v) (fun v => v)
        (fun v => v)) 1 (some (some 1))).2 = .ok (some 1) ∧
    (readOrWriteObs 30 (c6Setup (some 0) (fun v => v == some 1) (fun v => v) (fun v => v)
        (fun v => v)) 1 (some (some 1))).1.reported =
      (c6Setup (some 0) (fun v => v == some 1) (fun v => v) (fun v => v)
        (fun v => v)).reported + 1 ∧
    peekValue (readOrWriteObs 30 (c6Setup (some 0) (fun v => v == some 1) (fun v => v)
        (fun v => v) (fun v => v)) 1 (some (some 1))).1 2 = some 0 ∧
    evalCount (readOrWriteObs 30 (c6Setup (some 0) (fun v => v == some 1) (fun v => v)
        (fun v => v) (fun v => v)) 1 (some (some 1))).1 2 =
      evalCount (c6Setup (some 0) (fun v => v == some 1) (fun v => v) (fun v => v)
        (fun v => v)) 2 + 1 ∧
    evalCount (readOrWriteObs 30 (c6Setup (some 0) (fun v => v == some 1) (fun v => v)
        (fun v => v) (fun v => v)) 1 (some (some 1))).1 3 =
      evalCount (c6Setup (some 0) (fun v => v == some 1) (fun v => v) (fun v => v)
        (fun v => v)) 3 ∧
    peekValue (readOrWriteObs 30 (c6Setup (some 0) (fun v => v == some 1) (fun v => v)
        (fun v => v) (fun v => v)) 1 (some (some 1))).1 3 = some 0 ∧
    evalCount (readOrWriteObs 30 (c6Setup (some 0) (fun v => v == some 1) (fun v => v)
        (fun v => v) (fun v => v)) 1 (some (some 1))).1 4 =
      evalCount (c6Setup (some 0) (fun v => v == some 1) (fun v => v) (fun v => v)
        (fun v => v)) 4 + 1 ∧
    peekValue (readOrWriteObs 30 (c6Setup (some 0) (fun v => v == some 1) (fun v => v)
        (fun v => v) (fun v => v)) 1 (some (some 1))).1 4 = some 1 :=
  C6_error_isolation (some 0) (some 1) (fun v => v == some 1) (fun v => v) (fun v => v)
    (fun v => v) (by decide) (by decide) (by decide)
/-!
Claim C2: the update queue is a binary min-heap keyed by level.
`enqueueUpdate` / `dequeueUpdate` delegate to `heapPush` / `heapPop`
over the level function (a queued cell's level does not change while it
is queued, since a cell's level is only rewritten by
`establishDependencies` during its own re-evaluation, which happens
only after it has been dequeued).  We prove that starting from the
empty queue, after any interleaving of pushes and pops, every pop
returns an element of minimal level among those queued at that moment,
and derive the ascending-order property of a flush from it.
-/

/-- Entry `i` of the queue array (JS `updateQ[i]`, `undefined ↦ 0`). -/
def getL (q : List Nat) (i : Nat) : Nat := q.getD i 0

theorem getL_set_self : ∀ (q : List Nat) (i v : Nat), i < q.length →
    getL (q.set i v) i = v := by
  intro q
  induction q with
  | nil => intro i v h; simp at h
  | cons a q ih =>
    intro i v h
    cases i with
    | zero => simp [getL]
    | succ m =>
      simp only [List.set]
      have := ih m v (by simpa using h)
      simpa [getL] using this

theorem getL_set_ne : ∀ (q : List Nat) (i k v : Nat), k ≠ i →
    getL (q.set i v) k = getL q k := by
  intro q
  induction q with
  | nil => intro i k v _; simp [getL]
  | cons a q ih =>
    intro i k v hk
    cases i with
    | zero =>
      cases k with
      | zero => exact absurd rfl hk
      | succ m => simp [getL]
    | succ n =>
      cases k with
      | zero => simp [getL]
      | succ m =>
        simp only [List.set]
        have := ih n m v (by omega)
        simpa [getL] using this

theorem getL_append_left : ∀ (q r : List Nat) (m : Nat), m < q.length →
    getL (q ++ r) m = getL q m := by
  intro q
  induction q with
  | nil => intro r m h; simp at h
  | cons a q ih =>
    intro r m h
    cases m with
    | zero => simp [getL]
    | succ m' =>
      have := ih r m' (by simpa using h)
      simpa [getL] using this

theorem getL_append_self : ∀ (q : List Nat) (x : Nat), getL (q ++ [x]) q.length = x := by
  intro q
  induction q with
  | nil => intro x; simp [getL]
  | cons a q ih => intro x; exact ih x

theorem getL_dropLast : ∀ (q : List Nat) (m : Nat), m + 1 < q.length →
    getL q.dropLast m = getL q m := by
  intro q
  induction q with
  | nil => intro m h; simp at h
  | cons a q ih =>
    intro m h
    cases q with
    | nil => simp at h
    | cons b q' =>
      cases m with
      | zero => simp [getL]
      | succ m' =>
        have := ih m' (by simpa using h)
        simpa [getL] using this

theorem getL_mem : ∀ (q : List Nat) (i : Nat), i < q.length → getL q i ∈ q := by
  intro q
  induction q with
  | nil => intro i h; simp at h
  | cons a q ih =>
    intro i h
    cases i with
    | zero => simp [getL]
    | succ m =>
      have := ih m (by simpa using h)
      simp only [getL, List.getD] at this ⊢
      exact List.mem_cons_of_mem a this

theorem mem_getL : ∀ (q : List Nat) (y : Nat), y ∈ q →
    ∃ i, i < q.length ∧ getL q i = y := by
  intro q
  induction q with
  | nil => intro y h; simp at h
  | cons a q ih =>
    intro y h
    rcases List.mem_cons.mp h with h | h
    · exact ⟨0, by simp, by simp [getL, h.symm]⟩
    · obtain ⟨i, hi, hg⟩ := ih y h
      exact ⟨i + 1, by simpa using hi, by simpa [getL] using hg⟩

/-- The binary-heap order maintained by the source's sift loops: the
parent `j >> 1` of every occupied slot `j` carries a level no larger
than `j`'s. -/
def HeapInv (lvl : Nat → Nat) (q : List Nat) : Prop :=
  ∀ j, 0 < j → j < q.length → lvl (getL q (j / 2)) ≤ lvl (getL q j)

/-- Sift invariant: heap order away from the hole `i`. -/
def heapA (lvl : Nat → Nat) (q : List Nat) (i : Nat) : Prop :=
  ∀ j, 0 < j → j < q.length → j ≠ i → j / 2 ≠ i →
    lvl (getL q (j / 2)) ≤ lvl (getL q j)

/-- Sift-up invariant at the hole: the inserted element and the hole's
parent are bounded by the hole's children. -/
def heapB (lvl : Nat → Nat) (q : List Nat) (i x : Nat) : Prop :=
  ∀ c, 0 < c → c < q.length → c / 2 = i →
    lvl x ≤ lvl (getL q c) ∧ (i ≠ 0 → lvl (getL q (i / 2)) ≤ lvl (getL q c))

/-- Sift-down invariant at the hole: the hole's parent is bounded by
the hole's children. -/
def heapC (lvl : Nat → Nat) (q : List Nat) (i : Nat) : Prop :=
  ∀ c, 0 < c → c < q.length → c / 2 = i → i ≠ 0 →
    lvl (getL q (i / 2)) ≤ lvl (getL q c)

theorem siftUp_heapInv (lvl : Nat → Nat) (x : Nat) :
    ∀ (fuel : Nat) (q : List Nat) (i : Nat), i < q.length → i + 1 ≤ fuel →
      heapA lvl q i → heapB lvl q i x → HeapInv lvl (siftUp lvl x fuel q i) := by
  intro fuel
  induction fuel with
  | zero => intro q i _ hf; omega
  | succ n ih =>
    intro q i hi _ hA hB
    by_cases h0 : i = 0
    · subst h0
      show HeapInv lvl (if (0 : Nat) = 0 then q.set 0 x else _)
      rw [if_pos rfl]
      intro j hj hjlen
      rw [List.length_set] at hjlen
      rw [getL_set_ne q 0 j x (by omega)]
      by_cases hp : j / 2 = 0
      · rw [hp, getL_set_self q 0 x hi]
        exact (hB j hj hjlen hp).1
      · rw [getL_set_ne q 0 (j / 2) x hp]
        exact hA j hj hjlen (by omega) hp
    · show HeapInv lvl
        (if i = 0 then q.set 0 x
         else if lvl (q.getD (i / 2) 0) ≤ lvl x then q.set i x
         else siftUp lvl x n (q.set i (q.getD (i / 2) 0)) (i / 2))
      rw [if_neg h0]
      by_cases hstop : lvl (q.getD (i / 2) 0) ≤ lvl x
      · rw [if_pos hstop]
        intro m hm hmlen
        rw [List.length_set] at hmlen
        by_cases hmi : m = i
        · subst hmi
          rw [getL_set_self q m x hi,
              getL_set_ne q m (m / 2) x (by omega)]
          exact hstop
        · rw [getL_set_ne q i m x hmi]
          by_cases hpi : m / 2 = i
          · rw [hpi, getL_set_self q i x hi]
            exact (hB m hm hmlen hpi).1
          · rw [getL_set_ne q i (m / 2) x hpi]
            exact hA m hm hmlen hmi hpi
      · rw [if_neg hstop]
        have hjlt : i / 2 < i := by omega
        have hjlen : i / 2 < (q.set i (q.getD (i / 2) 0)).length := by
          rw [List.length_set]; omega
        apply ih (q.set i (q.getD (i / 2) 0)) (i / 2)
          (by rw [List.length_set]; omega) (by omega)
        · -- heapA of the new state at hole i / 2
          intro m hm hmlen hmj hmpj
          rw [List.length_set] at hmlen
          by_cases hmi : m = i
          · subst hmi
            exact absurd rfl hmpj
          · rw [getL_set_ne q i m _ hmi]
            by_cases hpi : m / 2 = i
            · rw [hpi, getL_set_self q i _ hi]
              have := (hB m hm hmlen hpi).2 h0
              simpa [getL] using this
            · rw [getL_set_ne q i (m / 2) _ hpi]
              exact hA m hm hmlen hmi hpi
        · -- heapB of the new state at hole i / 2
          intro c hc hclen hcj
          rw [List.length_set] at hclen
          have hxlt : lvl x < lvl (q.getD (i / 2) 0) := by omega
          constructor
          · by_cases hci : c = i
            · subst hci
              rw [getL_set_self q c _ hi]
              omega
            · rw [getL_set_ne q i c _ hci]
              have hedge : lvl (getL q (c / 2)) ≤ lvl (getL q c) :=
                hA c hc hclen hci (by omega)
              rw [hcj] at hedge
              simp only [getL] at hedge ⊢
              omega
          · intro hj0
            have hj2i : i / 2 / 2 ≠ i := by omega
            rw [getL_set_ne q i (i / 2 / 2) _ hj2i]
            have hedgej : lvl (getL q (i / 2 / 2)) ≤ lvl (getL q (i / 2)) :=
              hA (i / 2) (by omega) (by omega) (by omega) (by omega)
            by_cases hci : c = i
            · subst hci
              rw [getL_set_self q c _ hi]
              simp only [getL] at hedgej ⊢
              omega
            · rw [getL_set_ne q i c _ hci]
              have hedge : lvl (getL q (c / 2)) ≤ lvl (getL q c) :=
                hA c hc hclen hci (by omega)
              rw [hcj] at hedge
              simp only [getL] at hedgej hedge ⊢
              omega

theorem heapPush_heapInv (lvl : Nat → Nat) (q : List Nat) (x : Nat)
    (h : HeapInv lvl q) : HeapInv lvl (heapPush lvl q x) := by
  apply siftUp_heapInv lvl x (q.length + 1) (q ++ [x]) q.length
    (by simp) (by omega)
  · intro m hm hmlen hmn hmpn
    rw [List.length_append, List.length_cons, List.length_nil] at hmlen
    have hmq : m < q.length := by omega
    rw [getL_append_left q [x] m hmq, getL_append_left q [x] (m / 2) (by omega)]
    exact h m hm hmq
  · intro c hc hclen hcn
    rw [List.length_append, List.length_cons, List.length_nil] at hclen
    omega

theorem siftDown_heapInv (lvl : Nat → Nat) (x : Nat) :
    ∀ (fuel : Nat) (q : List Nat) (i j : Nat), i < q.length →
      q.length ≤ fuel + i → j = max (2 * i) 1 →
      heapA lvl q i → heapC lvl q i →
      (i ≠ 0 → lvl (getL q (i / 2)) ≤ lvl x) →
      HeapInv lvl (siftDown lvl x fuel q i j) := by
  intro fuel
  induction fuel with
  | zero => intro q i j hi hf; omega
  | succ n ih =>
    intro q i j hi hf hij hA hC hx
    show HeapInv lvl
      (if j < q.length then
        if lvl (q.getD j 0) ≤ lvl (q.getD (min (j + 1) (q.length - 1)) 0) then
          if lvl x ≤ lvl (q.getD j 0) then q.set i x
          else siftDown lvl x n (q.set i (q.getD j 0)) j (2 * j)
        else
          if lvl x ≤ lvl (q.getD (min (j + 1) (q.length - 1)) 0) then q.set i x
          else siftDown lvl x n (q.set i (q.getD (min (j + 1) (q.length - 1)) 0))
            (min (j + 1) (q.length - 1)) (2 * min (j + 1) (q.length - 1))
      else q.set i x)
    by_cases hjn : j < q.length
    · rw [if_pos hjn]
      by_cases hqj : lvl (q.getD j 0) ≤ lvl (q.getD (min (j + 1) (q.length - 1)) 0)
      · rw [if_pos hqj]
        by_cases hxj : lvl x ≤ lvl (q.getD j 0)
        · rw [if_pos hxj]
          intro m hm hmlen
          rw [List.length_set] at hmlen
          by_cases hmi : m = i
          · subst hmi
            rw [getL_set_self q m x hi, getL_set_ne q m (m / 2) x (by omega)]
            exact hx (by omega)
          · rw [getL_set_ne q i m x hmi]
            by_cases hpi : m / 2 = i
            · rw [hpi, getL_set_self q i x hi]
              simp only [getL]
              by_cases hmj : m = j
              · rw [hmj]; exact hxj
              · have hmk : m = min (j + 1) (q.length - 1) := by omega
                rw [hmk]
                exact le_trans hxj hqj
            · rw [getL_set_ne q i (m / 2) x hpi]
              exact hA m hm hmlen hmi hpi
        · rw [if_neg hxj]
          refine ih (q.set i (q.getD j 0)) j (2 * j) ?_ ?_ ?_ ?_ ?_ ?_
          · rw [List.length_set]; omega
          · rw [List.length_set]; omega
          · omega
          · intro m hm hmlen hmj hmpj
            rw [List.length_set] at hmlen
            by_cases hmi : m = i
            · subst hmi
              rw [getL_set_self q m _ hi, getL_set_ne q m (m / 2) _ (by omega)]
              have := hC j (by omega) hjn (by omega) (by omega)
              simpa [getL] using this
            · rw [getL_set_ne q i m _ hmi]
              by_cases hpi : m / 2 = i
              · rw [hpi, getL_set_self q i _ hi]
                have hmk : m = min (j + 1) (q.length - 1) := by omega
                simp only [getL]
                rw [hmk]
                exact hqj
              · rw [getL_set_ne q i (m / 2) _ hpi]
                exact hA m hm hmlen hmi hpi
          · intro c hc hclen hcj hj0
            rw [List.length_set] at hclen
            have hji : j / 2 = i := by omega
            have hci : c ≠ i := by omega
            rw [hji, getL_set_self q i _ hi, getL_set_ne q i c _ hci]
            have := hA c hc hclen hci (by omega)
            rw [hcj] at this
            simpa [getL] using this
          · intro hj0
            have hji : j / 2 = i := by omega
            rw [hji, getL_set_self q i _ hi]
            simp only [getL] at hxj ⊢
            omega
      · rw [if_neg hqj]
        have hkj : min (j + 1) (q.length - 1) = j + 1 := by
          by_contra hcon
          have hmin : min (j + 1) (q.length - 1) = j := by omega
          rw [hmin] at hqj
          exact hqj (le_refl _)
        have hi1 : 1 ≤ i := by
          by_contra hcon
          have hi0 : i = 0 := by omega
          have hj1 : j = 1 := by omega
          have h2 : (2 : Nat) < q.length := by omega
          have h12 : lvl (getL q 1) ≤ lvl (getL q 2) := by
            have := hA 2 (by omega) h2 (by omega) (by omega)
            norm_num at this
            exact this
          rw [hkj, hj1] at hqj
          exact hqj (by simpa [getL] using h12)
        have hj2i : j = 2 * i := by omega
        rw [hkj] at hqj ⊢
        by_cases hxk : lvl x ≤ lvl (q.getD (j + 1) 0)
        · rw [if_pos hxk]
          intro m hm hmlen
          rw [List.length_set] at hmlen
          by_cases hmi : m = i
          · subst hmi
            rw [getL_set_self q m x hi, getL_set_ne q m (m / 2) x (by omega)]
            exact hx (by omega)
          · rw [getL_set_ne q i m x hmi]
            by_cases hpi : m / 2 = i
            · rw [hpi, getL_set_self q i x hi]
              simp only [getL]
              by_cases hmj : m = j + 1
              · rw [hmj]; exact hxk
              · have hmj2 : m = j := by omega
                rw [hmj2]
                omega
            · rw [getL_set_ne q i (m / 2) x hpi]
              exact hA m hm hmlen hmi hpi
        · rw [if_neg hxk]
          refine ih (q.set i (q.getD (j + 1) 0)) (j + 1) (2 * (j + 1)) ?_ ?_ ?_ ?_ ?_ ?_
          · rw [List.length_set]; omega
          · rw [List.length_set]; omega
          · omega
          · intro m hm hmlen hmk1 hmpk1
            rw [List.length_set] at hmlen
            by_cases hmi : m = i
            · subst hmi
              rw [getL_set_self q m _ hi, getL_set_ne q m (m / 2) _ (by omega)]
              have := hC (j + 1) (by omega) (by omega) (by omega) (by omega)
              simpa [getL] using this
            · rw [getL_set_ne q i m _ hmi]
              by_cases hpi : m / 2 = i
              · have hmj : m = j := by omega
                rw [hpi, getL_set_self q i _ hi]
                simp only [getL]
                rw [hmj]
                omega
              · rw [getL_set_ne q i (m / 2) _ hpi]
                exact hA m hm hmlen hmi hpi
          · intro c hc hclen hck hk0
            rw [List.length_set] at hclen
            have hki : (j + 1) / 2 = i := by omega
            have hci : c ≠ i := by omega
            rw [hki, getL_set_self q i _ hi, getL_set_ne q i c _ hci]
            have := hA c hc hclen hci (by omega)
            rw [hck] at this
            simpa [getL] using this
          · intro hk0
            have hki : (j + 1) / 2 = i := by omega
            rw [hki, getL_set_self q i _ hi]
            simp only [getL] at hxk ⊢
            omega
    · rw [if_neg hjn]
      intro m hm hmlen
      rw [List.length_set] at hmlen
      by_cases hmi : m = i
      · subst hmi
        rw [getL_set_self q m x hi, getL_set_ne q m (m / 2) x (by omega)]
        exact hx (by omega)
      · rw [getL_set_ne q i m x hmi]
        by_cases hpi : m / 2 = i
        · omega
        · rw [getL_set_ne q i (m / 2) x hpi]
          exact hA m hm hmlen hmi hpi

theorem heapInv_root_le (lvl : Nat → Nat) (q : List Nat) (h : HeapInv lvl q) :
    ∀ i, i < q.length → lvl (getL q 0) ≤ lvl (getL q i) := by
  intro i
  induction i using Nat.strong_induction_on with
  | _ i ih =>
    intro hi
    cases Nat.eq_zero_or_pos i with
    | inl h0 => rw [h0]
    | inr hpos =>
      have h1 := h i hpos hi
      have h2 := ih (i / 2) (by omega) (by omega)
      omega

theorem heapInv_root_min (lvl : Nat → Nat) (q : List Nat) (h : HeapInv lvl q) :
    ∀ y ∈ q, lvl (getL q 0) ≤ lvl y := by
  intro y hy
  obtain ⟨i, hi, hg⟩ := mem_getL q y hy
  rw [← hg]
  exact heapInv_root_le lvl q h i hi

theorem heapPop_fst (lvl : Nat → Nat) (q : List Nat) (hq : q ≠ []) :
    (heapPop lvl q).1 = some (getL q 0) := by
  cases q with
  | nil => exact absurd rfl hq
  | cons a rest =>
    simp only [heapPop]
    split
    · rfl
    · rfl

theorem heapPop_heapInv (lvl : Nat → Nat) (q : List Nat) (h : HeapInv lvl q) :
    HeapInv lvl (heapPop lvl q).2 := by
  cases q with
  | nil =>
    intro m hm hmlen
    simp [heapPop] at hmlen
  | cons a rest =>
    simp only [heapPop]
    by_cases hlen : (a :: rest).dropLast.length = 0
    · rw [if_pos hlen]
      show HeapInv lvl (a :: rest).dropLast
      intro m hm hmlen
      omega
    · rw [if_neg hlen]
      show HeapInv lvl (siftDown lvl ((a :: rest).getLast (by simp))
        ((a :: rest).dropLast.length + 1) (a :: rest).dropLast 0 1)
      have hdl : (a :: rest).dropLast.length = (a :: rest).length - 1 :=
        List.length_dropLast (a :: rest)
      apply siftDown_heapInv
      · omega
      · omega
      · rfl
      · intro m hm hmlen hm0 hmp0
        have hm1 : m + 1 < (a :: rest).length := by omega
        rw [getL_dropLast _ m hm1, getL_dropLast _ (m / 2) (by omega)]
        exact h m hm (by omega)
      · intro c hc hclen hc0 h00
        exact absurd rfl h00
      · intro h00
        exact absurd rfl h00

/-- One step of the queue's life: `some x` is an `enqueueUpdate` push of
cell `x`, `none` is a `dequeueUpdate` pop. -/
def heapStep (lvl : Nat → Nat) (acc : List Nat × List (Nat × List Nat))
    (op : Option Nat) : List Nat × List (Nat × List Nat) :=
  match op with
  | some x => (heapPush lvl acc.1 x, acc.2)
  | none =>
    match heapPop lvl acc.1 with
    | (some r, q2) => (q2, acc.2 ++ [(r, acc.1)])
    | (none, q2) => (q2, acc.2)

/-- Run a sequence of pushes and pops from the empty queue, logging for
every successful pop the popped element together with the queue
contents just before the pop. -/
def runHeapOps (lvl : Nat → Nat) (ops : List (Option Nat)) :
    List Nat × List (Nat × List Nat) :=
  ops.foldl (heapStep lvl) ([], [])

/-- Every logged pop returned an element of the queue of minimal level. -/
def popLogOK (lvl : Nat → Nat) (log : List (Nat × List Nat)) : Prop :=
  ∀ pr ∈ log, pr.1 ∈ pr.2 ∧ ∀ y ∈ pr.2, lvl pr.1 ≤ lvl y

theorem runHeapOps_aux (lvl : Nat → Nat) :
    ∀ (ops : List (Option Nat)) (q : List Nat) (log : List (Nat × List Nat)),
      HeapInv lvl q → popLogOK lvl log →
      HeapInv lvl (ops.foldl (heapStep lvl) (q, log)).1 ∧
      popLogOK lvl (ops.foldl (heapStep lvl) (q, log)).2 := by
  intro ops
  induction ops with
  | nil => intro q log h1 h2; exact ⟨h1, h2⟩
  | cons op ops ih =>
    intro q log h1 h2
    rw [List.foldl_cons]
    cases op with
    | some x =>
      exact ih (heapPush lvl q x) log (heapPush_heapInv lvl q x h1) h2
    | none =>
      cases q with
      | nil =>
        exact ih [] log (by intro m hm hmlen; simp at hmlen) h2
      | cons a rest =>
        have hfst := heapPop_fst lvl (a :: rest) (by simp)
        have hinv := heapPop_heapInv lvl (a :: rest) h1
        rcases hpop : heapPop lvl (a :: rest) with ⟨r, q2⟩
        rw [hpop] at hfst hinv
        simp only at hfst hinv
        subst hfst
        simp only [heapStep, hpop]
        apply ih q2 (log ++ [(getL (a :: rest) 0, a :: rest)]) hinv
        intro pr hpr
        rcases List.mem_append.mp hpr with hpr | hpr
        · exact h2 pr hpr
        · have hpr2 : pr = (getL (a :: rest) 0, a :: rest) := by simpa using hpr
          subst hpr2
          refine ⟨getL_mem _ 0 (by simp), ?_⟩
          intro y hy
          exact heapInv_root_min lvl (a :: rest) h1 y hy

/-- C2: the update queue is a binary min-heap on levels.  Starting from
the empty queue, under any interleaving of `enqueueUpdate` pushes and
`dequeueUpdate` pops, every pop returns an element of the queue whose
level is minimal among all queued elements at that moment; consequently
successive pops during a flush come out in ascending level order as long
as the elements present at the later pop were already present at the
earlier one or have a level at least the earlier minimum. -/
theorem C2_dequeue_min (lvl : Nat → Nat) (ops : List (Option Nat)) :
    (∀ pr ∈ (runHeapOps lvl ops).2, pr.1 ∈ pr.2 ∧ ∀ y ∈ pr.2, lvl pr.1 ≤ lvl y) ∧
    (∀ l1 pr1 pr2 l2, (runHeapOps lvl ops).2 = l1 ++ pr1 :: pr2 :: l2 →
      (∀ y ∈ pr2.2, y ∈ pr1.2 ∨ lvl pr1.1 ≤ lvl y) → lvl pr1.1 ≤ lvl pr2.1) := by
  have hmain : HeapInv lvl (runHeapOps lvl ops).1 ∧ popLogOK lvl (runHeapOps lvl ops).2 :=
    runHeapOps_aux lvl ops [] []
      (by intro m hm hmlen; simp at hmlen)
      (by intro pr hpr; simp at hpr)
  constructor
  · exact hmain.2
  · intro l1 pr1 pr2 l2 heq hsub
    have h1 : pr1 ∈ (runHeapOps lvl ops).2 := by rw [heq]; simp
    have h2m : pr2.1 ∈ pr2.2 := (hmain.2 pr2 (by rw [heq]; simp)).1
    rcases hsub pr2.1 h2m with hin | hle
    · exact (hmain.2 pr1 h1).2 pr2.1 hin
    · exact hle

theorem C2_dequeue_min_witness :
    3 ∈ [3, 4, 5] ∧ ∀ y ∈ [3, 4, 5], (fun n : Nat => n) 3 ≤ (fun n : Nat => n) y :=
  (C2_dequeue_min (fun n => n) [some 5, some 3, some 4, none, none]).1
    (3, [3, 4, 5]) (by decide)

/-!
Claim C8: keyed child reconciliation (`reorderKeyedChildren`).  DOM
nodes are modelled by their identity (`id`) and optional `key`
property; the parent's live child list is a `List RNode`, the vDOM
child list contributes only its list of `key` properties.  The JS
function mutates the DOM and returns `void`, exiting through one of
four `return` paths; the model returns the final child list, which of
the four exits was taken, and the name-supply counter for the `DIV`
placeholder nodes it creates.  No exception is ever thrown (there is no
`throw` in the source), so every exit is silent.
-/

/-- A live DOM child: its identity and its `key` property. -/
structure RNode where
  id : Nat
  key : Option Nat
deriving DecidableEq

/-- The four `return` paths of `reorderKeyedChildren`. -/
inductive ReorderExit
  | trivial
  | missingChildKey
  | missingVKey
  | completed
deriving DecidableEq

/-- The `keyToChild` map: JS object assignment in a loop, so the last
child with a given key wins. -/
def keyToChildLookup (children : List RNode) (k : Nat) : Option RNode :=
  children.reverse.find? (fun c => c.key == some k)

/-- Insert `node` before the child with identity `rid` (at the end if
no such child remains). -/
def insBeforeId : List RNode → RNode → Nat → List RNode
  | [], node, _ => [node]
  | c :: cs, node, rid =>
    if c.id = rid then node :: c :: cs else c :: insBeforeId cs node rid

/-- DOM `parent.insertBefore(node, ref)`: the node is first removed
from its current position, then inserted before `ref` (appended when
`ref` is `null`, as in `appendChild`). -/
def insertBefore (children : List RNode) (node : RNode) (ref : Option RNode) : List RNode :=
  let cleaned := children.filter (fun c => c.id ≠ node.id)
  match ref with
  | none => cleaned ++ [node]
  | some r => insBeforeId cleaned node r.id

/-- `child.nextSibling` of the child with identity `rid` in the current
child list. -/
def nextAfter : List RNode → Nat → Option RNode
  | [], _ => none
  | c :: cs, rid => if c.id = rid then cs.head? else nextAfter cs rid

/-- The reordering loop of `reorderKeyedChildren`: walk the vDOM keys,
advancing the cursor on a key match, moving the required child (or a
fresh `DIV` placeholder, numbered from `fresh`) before the cursor
otherwise, and returning through the `vkey == null` early exit when a
vDOM entry lacks a key. -/
def reorderLoop (keyMap : Nat → Option RNode) :
    Nat → List (Option Nat) → List RNode → Option RNode →
    List RNode × ReorderExit × Nat
  | fresh, [], children, _ => (children, ReorderExit.completed, fresh)
  | fresh, vkey :: vks, children, cursor =>
    match vkey with
    | none => (children, ReorderExit.missingVKey, fresh)
    | some k =>
      match cursor with
      | some child =>
        if child.key == some k then
          reorderLoop keyMap fresh vks children (nextAfter children child.id)
        else
          match keyMap k with
          | some rc =>
            reorderLoop keyMap fresh vks (insertBefore children rc (some child)) (some child)
          | none =>
            reorderLoop keyMap (fresh + 1) vks
              (insertBefore children ⟨fresh, none⟩ (some child)) (some child)
      | none =>
        match keyMap k with
        | some rc => reorderLoop keyMap fresh vks (insertBefore children rc none) none
        | none =>
          reorderLoop keyMap (fresh + 1) vks (insertBefore children ⟨fresh, none⟩ none) none

/-- Source `reorderKeyedChildren`: exit early when there is nothing to
reorder, abandon before touching anything when a live child lacks a
key, then run the reordering loop. -/
def reorderKeyedChildren (vkeys : List (Option Nat)) (children : List RNode)
    (fresh : Nat) : List RNode × ReorderExit × Nat :=
  if vkeys.length = 0 ∨ children.head?.isNone then (children, ReorderExit.trivial, fresh)
  else if children.any (fun c => c.key.isNone) then
    (children, ReorderExit.missingChildKey, fresh)
  else reorderLoop (keyToChildLookup children) fresh vkeys children children.head?

theorem reorderLoop_drops_after_none (m : Nat → Option RNode)
    (rest rest2 : List (Option Nat)) :
    ∀ (ks : List (Option Nat)) (fresh : Nat) (children : List RNode)
      (cursor : Option RNode),
      reorderLoop m fresh (ks ++ none :: rest) children cursor =
      reorderLoop m fresh (ks ++ none :: rest2) children cursor := by
  intro ks
  induction ks with
  | nil => intro fresh children cursor; rfl
  | cons k ks ih =>
    intro fresh children cursor
    cases k with
    | none => rfl
    | some kv =>
      cases cursor with
      | none =>
        cases hm : m kv with
        | none => simp only [List.cons_append, reorderLoop, hm]; apply ih
        | some rc => simp only [List.cons_append, reorderLoop, hm]; apply ih
      | some child =>
        cases hck : child.key == some kv with
        | true => simp only [List.cons_append, reorderLoop, hck, if_true]; apply ih
        | false =>
          cases hm : m kv with
          | none =>
            simp only [List.cons_append, reorderLoop, hck, Bool.false_eq_true,
              if_false, hm]
            apply ih
          | some rc =>
            simp only [List.cons_append, reorderLoop, hck, Bool.false_eq_true,
              if_false, hm]
            apply ih

theorem reorderLoop_missingVKey (m : Nat → Option RNode)
    (rest : List (Option Nat)) :
    ∀ (ks : List (Option Nat)) (fresh : Nat) (children : List RNode)
      (cursor : Option RNode), (∀ k ∈ ks, Option.isSome k = true) →
      (reorderLoop m fresh (ks ++ none :: rest) children cursor).2.1 =
        ReorderExit.missingVKey := by
  intro ks
  induction ks with
  | nil => intro fresh children cursor _; rfl
  | cons k ks ih =>
    intro fresh children cursor hall
    have hk := hall k (List.mem_cons_self k ks)
    cases k with
    | none => simp at hk
    | some kv =>
      have hall2 : ∀ x ∈ ks, Option.isSome x = true :=
        fun x hx => hall x (List.mem_cons_of_mem _ hx)
      cases cursor with
      | none =>
        cases hm : m kv with
        | none =>
          simp only [List.cons_append, reorderLoop, hm]
          exact ih _ _ _ hall2
        | some rc =>
          simp only [List.cons_append, reorderLoop, hm]
          exact ih _ _ _ hall2
      | some child =>
        cases hck : child.key == some kv with
        | true =>
          simp only [List.cons_append, reorderLoop, hck, if_true]
          exact ih _ _ _ hall2
        | false =>
          cases hm : m kv with
          | none =>
            simp only [List.cons_append, reorderLoop, hck, Bool.false_eq_true,
              if_false, hm]
            exact ih _ _ _ hall2
          | some rc =>
            simp only [List.cons_append, reorderLoop, hck, Bool.false_eq_true,
              if_false, hm]
            exact ih _ _ _ hall2

theorem reorderLoop_completed (m : Nat → Option RNode) :
    ∀ (vks : List (Option Nat)) (fresh : Nat) (children : List RNode)
      (cursor : Option RNode), (∀ k ∈ vks, Option.isSome k = true) →
      (reorderLoop m fresh vks children cursor).2.1 = ReorderExit.completed := by
  intro vks
  induction vks with
  | nil => intro fresh children cursor _; rfl
  | cons k ks ih =>
    intro fresh children cursor hall
    have hk := hall k (List.mem_cons_self k ks)
    cases k with
    | none => simp at hk
    | some kv =>
      have hall2 : ∀ x ∈ ks, Option.isSome x = true :=
        fun x hx => hall x (List.mem_cons_of_mem _ hx)
      cases cursor with
      | none =>
        cases hm : m kv with
        | none => simp only [reorderLoop, hm]; exact ih _ _ _ hall2
        | some rc => simp only [reorderLoop, hm]; exact ih _ _ _ hall2
      | some child =>
        cases hck : child.key == some kv with
        | true => simp only [reorderLoop, hck, if_true]; exact ih _ _ _ hall2
        | false =>
          cases hm : m kv with
          | none =>
            simp only [reorderLoop, hck, Bool.false_eq_true, if_false, hm]
            exact ih _ _ _ hall2
          | some rc =>
            simp only [reorderLoop, hck, Bool.false_eq_true, if_false, hm]
            exact ih _ _ _ hall2

theorem reorderLoop_completed_keys (m : Nat → Option RNode) :
    ∀ (vks : List (Option Nat)) (fresh : Nat) (children : List RNode)
      (cursor : Option RNode),
      (reorderLoop m fresh vks children cursor).2.1 = ReorderExit.completed →
      ∀ k ∈ vks, Option.isSome k = true := by
  intro vks
  induction vks with
  | nil => intro fresh children cursor _ k hk; simp at hk
  | cons k ks ih =>
    intro fresh children cursor hdone x hx
    cases k with
    | none => simp [reorderLoop] at hdone
    | some kv =>
      rcases List.mem_cons.mp hx with hx | hx
      · rw [hx]; rfl
      · cases cursor with
        | none =>
          cases hm : m kv with
          | none =>
            rw [show ((some kv : Option Nat) :: ks) = [some kv] ++ ks from rfl] at hdone
            simp only [List.cons_append, List.nil_append, reorderLoop, hm] at hdone
            exact ih _ _ _ hdone x hx
          | some rc =>
            simp only [reorderLoop, hm] at hdone
            exact ih _ _ _ hdone x hx
        | some child =>
          cases hck : child.key == some kv with
          | true =>
            simp only [reorderLoop, hck, if_true] at hdone
            exact ih _ _ _ hdone x hx
          | false =>
            cases hm : m kv with
            | none =>
              simp only [reorderLoop, hck, Bool.false_eq_true, if_false, hm] at hdone
              exact ih _ _ _ hdone x hx
            | some rc =>
              simp only [reorderLoop, hck, Bool.false_eq_true, if_false, hm] at hdone
              exact ih _ _ _ hdone x hx

/-- C8: keyed reordering is abandoned silently when any child lacks a
key.  (1) If any live child lacks a key the pass returns with the child
list untouched; (2) vDOM entries beyond a keyless vDOM entry never
influence the result (no partial reorder beyond the point of
detection); (3) a keyless vDOM entry exits through the silent
`vkey == null` return; (4) when every child on both sides carries a key
the pass runs to completion; (5) and it completes only then. -/
theorem C8_keyed_reorder_abandoned (vkeys ks rest : List (Option Nat))
    (children : List RNode) (fresh : Nat) :
    (vkeys ≠ [] → children ≠ [] → (∃ c ∈ children, c.key = none) →
      reorderKeyedChildren vkeys children fresh
        = (children, ReorderExit.missingChildKey, fresh)) ∧
    (reorderKeyedChildren (ks ++ none :: rest) children fresh
      = reorderKeyedChildren (ks ++ [none]) children fresh) ∧
    ((∀ k ∈ ks, Option.isSome k = true) → children ≠ [] →
      (reorderKeyedChildren (ks ++ none :: rest) children fresh).2.1
        = ReorderExit.missingVKey ∨
      (reorderKeyedChildren (ks ++ none :: rest) children fresh).2.1
        = ReorderExit.missingChildKey) ∧
    ((∀ k ∈ vkeys, Option.isSome k = true) →
      (∀ c ∈ children, c.key.isSome = true) → vkeys ≠ [] → children ≠ [] →
      (reorderKeyedChildren vkeys children fresh).2.1 = ReorderExit.completed) ∧
    ((reorderKeyedChildren vkeys children fresh).2.1 = ReorderExit.completed →
      vkeys ≠ [] → children ≠ [] →
      (∀ k ∈ vkeys, Option.isSome k = true) ∧
      (∀ c ∈ children, c.key.isSome = true)) := by
  refine ⟨?_, ?_, ?_, ?_, ?_⟩
  · intro hv hc hex
    cases children with
    | nil => exact absurd rfl hc
    | cons a cs =>
      have hC1 : ¬(vkeys.length = 0 ∨ ((a :: cs).head?.isNone = true)) := by
        simp [List.length_eq_zero]
        exact hv
      obtain ⟨c, hcm, hck⟩ := hex
      have hany : (a :: cs).any (fun c => c.key.isNone) = true :=
        List.any_eq_true.mpr ⟨c, hcm, by rw [hck]; rfl⟩
      simp only [reorderKeyedChildren]
      rw [if_neg hC1, if_pos hany]
  · cases children with
    | nil => simp [reorderKeyedChildren]
    | cons a cs =>
      have hC1 : ¬((ks ++ none :: rest).length = 0 ∨ ((a :: cs).head?.isNone = true)) := by
        simp
      have hC2 : ¬((ks ++ [none]).length = 0 ∨ ((a :: cs).head?.isNone = true)) := by
        simp
      simp only [reorderKeyedChildren]
      rw [if_neg hC1, if_neg hC2]
      by_cases hany : (a :: cs).any (fun c => c.key.isNone) = true
      · rw [if_pos hany, if_pos hany]
      · rw [if_neg hany, if_neg hany]
        exact reorderLoop_drops_after_none _ rest [] ks fresh _ _
  · intro hks hc
    cases children with
    | nil => exact absurd rfl hc
    | cons a cs =>
      have hC1 : ¬((ks ++ none :: rest).length = 0 ∨ ((a :: cs).head?.isNone = true)) := by
        simp
      simp only [reorderKeyedChildren]
      rw [if_neg hC1]
      by_cases hany : (a :: cs).any (fun c => c.key.isNone) = true
      · rw [if_pos hany]
        exact Or.inr rfl
      · rw [if_neg hany]
        exact Or.inl (reorderLoop_missingVKey _ rest ks fresh _ _ hks)
  · intro hv hkeyed hvne hc
    cases children with
    | nil => exact absurd rfl hc
    | cons a cs =>
      have hC1 : ¬(vkeys.length = 0 ∨ ((a :: cs).head?.isNone = true)) := by
        simp [List.length_eq_zero]
        exact hvne
      have hany : ¬((a :: cs).any (fun c => c.key.isNone) = true) := by
        intro hx
        obtain ⟨c, hcm, hck⟩ := List.any_eq_true.mp hx
        have := hkeyed c hcm
        cases hkc : c.key with
        | none => rw [hkc] at this; simp at this
        | some v => rw [hkc] at hck; simp at hck
      simp only [reorderKeyedChildren]
      rw [if_neg hC1, if_neg hany]
      exact reorderLoop_completed _ vkeys fresh _ _ hv
  · intro hdone hvne hc
    cases children with
    | nil => exact absurd rfl hc
    | cons a cs =>
      have hC1 : ¬(vkeys.length = 0 ∨ ((a :: cs).head?.isNone = true)) := by
        simp [List.length_eq_zero]
        exact hvne
      simp only [reorderKeyedChildren] at hdone
      rw [if_neg hC1] at hdone
      by_cases hany : (a :: cs).any (fun c => c.key.isNone) = true
      · rw [if_pos hany] at hdone
        simp at hdone
      · rw [if_neg hany] at hdone
        refine ⟨reorderLoop_completed_keys _ vkeys fresh _ _ hdone, ?_⟩
        intro c hcm
        cases hkc : c.key with
        | some v => rfl
        | none =>
          exact absurd (List.any_eq_true.mpr ⟨c, hcm, by rw [hkc]; rfl⟩) hany

theorem C8_keyed_reorder_abandoned_witness :
    reorderKeyedChildren [some 1] [⟨0, some 5⟩, ⟨1, none⟩] 10
      = ([⟨0, some 5⟩, ⟨1, none⟩], ReorderExit.missingChildKey, 10) :=
  (C8_keyed_reorder_abandoned [some 1] [] [] [⟨0, some 5⟩, ⟨1, none⟩] 10).1
    (by decide) (by decide) ⟨⟨1, none⟩, by decide, rfl⟩

/-!
Claim C9: named component persistence.  `Od.component` is modelled by
its component-registry behaviour: the DOM patching, observable and
subscription plumbing of the source are dropped because the claim is
about component *identity* across parent re-evaluations, which is
decided entirely by `existingNamedComponent`, by the
`anonymousSubcomponents` / `namedSubcomponents` registration in the
parent's `ComponentInfo`, and by `disposeAnonymousSubcomponents`.  A
component reference is identified with its `componentID` drawn from the
`nextComponentID` name supply: the source allocates a fresh ID exactly
when it constructs a fresh component closure, so two references are
identical iff their IDs are equal.  `constructions` counts how many
times the construction path (everything after the `existingCmpt`
early return) runs.
-/

/-- The registry slice of the source's `ComponentInfo`. -/
structure CmptInfo where
  componentID : Nat
  anonymousSubcomponents : List Nat
  namedSubcomponents : List (String × Nat)
deriving DecidableEq

/-- Global state: `nextComponentID` name supply, the
`parentComponentInfo` in scope, the set of disposed components and the
construction count. -/
structure OdState where
  nextComponentID : Nat
  parentInfo : CmptInfo
  disposed : List Nat
  constructions : Nat
deriving DecidableEq

/-- JS object property read `namedSubcomponents[name]`. -/
def lookupNamed : List (String × Nat) → String → Option Nat
  | [], _ => none
  | (m, d) :: rest, n => if m = n then some d else lookupNamed rest n

/-- JS object property write `namedSubcomponents[name] = cmpt`. -/
def setNamed : List (String × Nat) → String → Nat → List (String × Nat)
  | [], n, c => [(n, c)]
  | (m, d) :: rest, n, c =>
    if m = n then (m, c) :: rest else (m, d) :: setNamed rest n c

/-- Source `existingNamedComponent`: a non-null name is looked up in
the scope's named subcomponents. -/
def existingNamedComponent (st : OdState) (name : Option String) : Option Nat :=
  match name with
  | none => none
  | some n => lookupNamed st.parentInfo.namedSubcomponents n

/-- Source `Od.component`: return the existing component for an
already-registered name, otherwise construct a fresh component (fresh
`componentID` from the name supply) and register it with the parent —
pushed onto `anonymousSubcomponents` when the name is null, stored
under the name otherwise. -/
def odComponent (st : OdState) (name : Option String) : Nat × OdState :=
  match existingNamedComponent st name with
  | some c => (c, st)
  | none =>
    let cmptID := st.nextComponentID
    let pi := st.parentInfo
    let pi2 :=
      match name with
      | none =>
        { pi with anonymousSubcomponents := pi.anonymousSubcomponents ++ [cmptID] }
      | some n =>
        { pi with namedSubcomponents := setNamed pi.namedSubcomponents n cmptID }
    (cmptID,
      { st with
        nextComponentID := cmptID + 1
        parentInfo := pi2
        constructions := st.constructions + 1 })

/-- Source `disposeAnonymousSubcomponents`: pop and dispose every
anonymous subcomponent (last first). -/
def disposeAnonymousSubcomponents (st : OdState) : OdState :=
  { st with
    parentInfo := { st.parentInfo with anonymousSubcomponents := [] },
    disposed := st.disposed ++ st.parentInfo.anonymousSubcomponents.reverse }

/-- One evaluation of a parent component's body that declares the given
sequence of subcomponents: the wrapper around the body first runs
`disposeAnonymousSubcomponents`, then the body's `Od.component` calls
register against the parent's scope in order.  Returns the component
references the body receives. -/
def parentBodyEval (st : OdState) (decls : List (Option String)) :
    List Nat × OdState :=
  decls.foldl
    (fun acc d =>
      (acc.1 ++ [(odComponent acc.2 d).1], (odComponent acc.2 d).2))
    ([], disposeAnonymousSubcomponents st)

/-- First evaluation of a parent body declaring one named and one
anonymous subcomponent. -/
def parentEval1 (st0 : OdState) (n : String) : List Nat × OdState :=
  parentBodyEval st0 [some n, none]

/-- Re-evaluation of the same parent body. -/
def parentEval2 (st0 : OdState) (n : String) : List Nat × OdState :=
  parentBodyEval (parentEval1 st0 n).2 [some n, none]

/-- The component reference the body's named declaration received. -/
def namedRef (e : List Nat × OdState) : Nat := e.1.getD 0 0

/-- The component reference the body's anonymous declaration received. -/
def anonRef (e : List Nat × OdState) : Nat := e.1.getD 1 0

theorem lookupNamed_setNamed_self (n : String) (c : Nat) :
    ∀ m : List (String × Nat), lookupNamed (setNamed m n c) n = some c := by
  intro m
  induction m with
  | nil => simp [setNamed, lookupNamed]
  | cons p rest ih =>
    by_cases hp : p.1 = n
    · simp [setNamed, lookupNamed, hp]
    · simp [setNamed, lookupNamed, hp, ih]

/-- C9: a subcomponent declared with a non-null name is returned
identically (same reference, no construction) on the parent's next
evaluation, while an anonymous subcomponent is disposed and a fresh,
distinct one is constructed.  For a parent body declaring one named and
one anonymous subcomponent, re-evaluation returns the same named
reference, runs construction exactly once more (for the anonymous one
only), yields a different anonymous reference, and has disposed the
previous anonymous one. -/
theorem C9_named_persistence (n : String) (st0 : OdState) :
    namedRef (parentEval2 st0 n) = namedRef (parentEval1 st0 n) ∧
    (parentEval2 st0 n).2.constructions
      = (parentEval1 st0 n).2.constructions + 1 ∧
    anonRef (parentEval2 st0 n) ≠ anonRef (parentEval1 st0 n) ∧
    anonRef (parentEval1 st0 n) ∈ (parentEval2 st0 n).2.disposed := by
  cases h : lookupNamed st0.parentInfo.namedSubcomponents n with
  | none =>
    refine ⟨?_, ?_, ?_, ?_⟩ <;>
      simp [parentEval1, parentEval2, parentBodyEval, odComponent,
        existingNamedComponent, disposeAnonymousSubcomponents, namedRef,
        anonRef, h, lookupNamed_setNamed_self, List.foldl]
  | some c =>
    refine ⟨?_, ?_, ?_, ?_⟩ <;>
      simp [parentEval1, parentEval2, parentBodyEval, odComponent,
        existingNamedComponent, disposeAnonymousSubcomponents, namedRef,
        anonRef, h, List.foldl]
